import Mathlib

/-!
# claude2api: `core/api.go`

A shallow embedding of the session client of `core/api.go` and theorems about it.

* Go strings are Lean `String`s; the separators and prefixes the code looks for are ASCII, so
  byte offsets and character offsets agree on them.
* Go maps (`map[string]interface{}`) are association lists with unique keys; a map value is a
  reference, so assigning a map to a second variable aliases it.
* Calls into other packages (`encoding/json`, `encoding/base64`, the HTTP client, the output sink
  `model.ReturnOpenAIResponse`) are parameters of the embedding or are recorded in a call log.
-/

namespace Claude2Api

/-! ## Strings -/

/-- Go `strings.HasPrefix`. -/
def HasPrefix (s pre : String) : Bool :=
  pre.data.isPrefixOf s.data

/-- Go `strings.HasSuffix`. -/
def HasSuffix (s suffix : String) : Bool :=
  suffix.data.reverse.isPrefixOf s.data.reverse

/-- Go `strings.TrimSuffix`. -/
def TrimSuffix (s suffix : String) : String :=
  if HasSuffix s suffix then ⟨s.data.take (s.data.length - suffix.data.length)⟩ else s

/-- Go slice expression `s[n:]` at an offset that follows `n` ASCII characters. -/
def sliceFrom (s : String) (n : Nat) : String :=
  ⟨s.data.drop n⟩

/-- Concatenation of a list of strings, first element first. -/
def concatAll : List String → String
  | [] => ""
  | s :: rest => s ++ concatAll rest

/-! ## The event stream translator (`HandleResponse`) -/

/-- The `delta` object of a backend event. -/
structure Delta where
  Type_ : String
  Text : String
  THINKING : String
  PartialJSON : String
  deriving DecidableEq, Repr

/-- The `error` object of a backend event. -/
structure ErrorInfo where
  Message : String
  deriving DecidableEq, Repr

/-- Go `ResponseEvent`: what `json.Unmarshal` fills from one payload line. -/
structure ResponseEvent where
  Type_ : String
  Index : Int
  Delta : Delta
  Error : ErrorInfo
  deriving DecidableEq, Repr

/-- What `HandleResponse` does to the caller's response writer, in order. -/
inductive SinkCall where
  /-- The three header writes, `WriteHeader(200)` and `Flush()` of streaming mode. -/
  | streamHeaders
  /-- The call `model.ReturnOpenAIResponse(text, stream, gc)`. -/
  | ReturnOpenAIResponse (text : String) (stream : Bool)
  /-- The write of the marker `data: [DONE]` followed by two newlines, and the flush. -/
  | writeDone
  deriving DecidableEq, Repr

/-- The texts handed to `model.ReturnOpenAIResponse`, in order. -/
def sinkTexts : List SinkCall → List String
  | [] => []
  | SinkCall.ReturnOpenAIResponse text _ :: rest => text :: sinkTexts rest
  | _ :: rest => sinkTexts rest

/-- The local variables of `HandleResponse` that live across loop iterations. -/
structure LoopState where
  thinkingShown : Bool
  res_all_text : String
  partial_json_shown : Bool
  deriving DecidableEq, Repr

/-- The values of the locals before the first iteration. -/
def LoopState.init : LoopState :=
  { thinkingShown := false, res_all_text := "", partial_json_shown := false }

/-- What one successfully decoded event does: either `HandleResponse` returns `nil` after the
listed sink calls, or the loop goes on in a new state after the listed sink calls. -/
inductive Step where
  | ret (calls : List SinkCall)
  | cont (st : LoopState) (calls : List SinkCall)
  deriving DecidableEq, Repr

/-- The sink calls of a chunk: none in aggregated mode, one in streaming mode. -/
def chunkCalls (stream : Bool) (res_text : String) : List SinkCall :=
  if !stream then [] else [SinkCall.ReturnOpenAIResponse res_text stream]

/-- The body of `if err := json.Unmarshal(...); err == nil { ... }` for a decoded event. -/
def handleEvent (stream : Bool) (st : LoopState) (event : ResponseEvent) : Step :=
  if event.Type_ = "error" ∧ event.Error.Message ≠ "" then
    Step.ret [SinkCall.ReturnOpenAIResponse event.Error.Message stream]
  else if event.Delta.Type_ = "text_delta" ∧ event.Delta.Text ≠ "" then
    let res_text := event.Delta.Text
    let res_text := if st.thinkingShown then "</think>\n" ++ res_text else res_text
    let res_text := if st.partial_json_shown then "\n```\n" ++ res_text else res_text
    Step.cont
      { thinkingShown := false, res_all_text := st.res_all_text ++ res_text,
        partial_json_shown := false }
      (chunkCalls stream res_text)
  else if event.Delta.Type_ = "thinking_delta" then
    let res_text := event.Delta.THINKING
    let res_text := if !st.thinkingShown then "<think> " ++ res_text else res_text
    Step.cont
      { thinkingShown := true, res_all_text := st.res_all_text ++ res_text,
        partial_json_shown := st.partial_json_shown }
      (chunkCalls stream res_text)
  else if event.Delta.Type_ = "input_json_delta" then
    let res_text := event.Delta.PartialJSON
    let res_text := if !st.partial_json_shown then "\n```\n " ++ res_text else res_text
    Step.cont
      { thinkingShown := st.thinkingShown, res_all_text := st.res_all_text ++ res_text,
        partial_json_shown := true }
      (chunkCalls stream res_text)
  else
    Step.cont st []

/-- Where the scanning loop of `HandleResponse` stands when it is left: the sink calls made in
it, the locals at that moment, and whether it was left by `return nil` (cancellation or error
event) rather than by the scanner running out of lines. -/
structure LoopOutcome where
  calls : List SinkCall
  st : LoopState
  returned : Bool
  deriving DecidableEq, Repr

/-- The loop `for scanner.Scan() { ... }`. `lines` are the lines the scanner yields,
`unmarshal` is `json.Unmarshal` into a `ResponseEvent` (`none` for a decoding error),
`clientDone i` tells whether the caller's `Done()` channel is closed when the `select` of
iteration `i` runs. -/
def scanLoop (unmarshal : String → Option ResponseEvent) (stream : Bool)
    (clientDone : Nat → Bool) : Nat → LoopState → List String → LoopOutcome
  | _, st, [] => { calls := [], st := st, returned := false }
  | i, st, line :: rest =>
    if clientDone i then
      { calls := [], st := st, returned := true }
    else if !HasPrefix line "data: " then
      scanLoop unmarshal stream clientDone (i + 1) st rest
    else
      match unmarshal (sliceFrom line 6) with
      | none => scanLoop unmarshal stream clientDone (i + 1) st rest
      | some event =>
        match handleEvent stream st event with
        | Step.ret calls => { calls := calls, st := st, returned := true }
        | Step.cont st1 calls =>
          let r := scanLoop unmarshal stream clientDone (i + 1) st1 rest
          { r with calls := calls ++ r.calls }

/-- What a call of `HandleResponse` did: the sink calls in order and the returned error
(`none` is `nil`). -/
structure HandleResult where
  calls : List SinkCall
  err : Option String
  deriving DecidableEq, Repr

/-- Go `Client.HandleResponse`. `scanErr` is the value of `scanner.Err()` after the loop. -/
def HandleResponse (unmarshal : String → Option ResponseEvent) (stream : Bool)
    (clientDone : Nat → Bool) (lines : List String) (scanErr : Option String) : HandleResult :=
  let headers := if stream then [SinkCall.streamHeaders] else []
  let r := scanLoop unmarshal stream clientDone 0 LoopState.init lines
  if r.returned then
    { calls := headers ++ r.calls, err := none }
  else
    match scanErr with
    | some e => { calls := headers ++ r.calls, err := some ("error reading response: " ++ e) }
    | none =>
      if !stream then
        { calls := headers ++ r.calls ++ [SinkCall.ReturnOpenAIResponse r.st.res_all_text stream],
          err := none }
      else
        { calls := headers ++ r.calls ++ [SinkCall.writeDone], err := none }

/-- A table of payloads and what `json.Unmarshal` decodes them to, used for concrete runs. -/
def sampleUnmarshal (data : String) : Option ResponseEvent :=
  if data = "\x7b\"type\":\"content_block_delta\",\"index\":0,\"delta\":\x7b\"type\":\"text_delta\",\"text\":\"a\"\x7d\x7d" then
    some { Type_ := "content_block_delta", Index := 0,
           Delta := { Type_ := "text_delta", Text := "a", THINKING := "", PartialJSON := "" },
           Error := { Message := "" } }
  else if data = "\x7b\"type\":\"content_block_delta\",\"index\":0,\"delta\":\x7b\"type\":\"thinking_delta\",\"thinking\":\"t\"\x7d\x7d" then
    some { Type_ := "content_block_delta", Index := 0,
           Delta := { Type_ := "thinking_delta", Text := "", THINKING := "t", PartialJSON := "" },
           Error := { Message := "" } }
  else if data = "\x7b\"type\":\"content_block_delta\",\"index\":1,\"delta\":\x7b\"type\":\"input_json_delta\",\"partial_json\":\"j\"\x7d\x7d" then
    some { Type_ := "content_block_delta", Index := 1,
           Delta := { Type_ := "input_json_delta", Text := "", THINKING := "", PartialJSON := "j" },
           Error := { Message := "" } }
  else if data = "\x7b\"type\":\"error\",\"error\":\x7b\"type\":\"overloaded_error\",\"message\":\"boom\"\x7d\x7d" then
    some { Type_ := "error", Index := 0,
           Delta := { Type_ := "", Text := "", THINKING := "", PartialJSON := "" },
           Error := { Message := "boom" } }
  else none

/-- A payload line carrying a one-character text delta. -/
def textLine : String :=
  "data: \x7b\"type\":\"content_block_delta\",\"index\":0,\"delta\":\x7b\"type\":\"text_delta\",\"text\":\"a\"\x7d\x7d"

/-- A payload line carrying a one-character thinking delta. -/
def thinkingLine : String :=
  "data: \x7b\"type\":\"content_block_delta\",\"index\":0,\"delta\":\x7b\"type\":\"thinking_delta\",\"thinking\":\"t\"\x7d\x7d"

/-- A payload line carrying a one-character tool-input delta. -/
def jsonLine : String :=
  "data: \x7b\"type\":\"content_block_delta\",\"index\":1,\"delta\":\x7b\"type\":\"input_json_delta\",\"partial_json\":\"j\"\x7d\x7d"

/-- A payload line carrying an error event. -/
def errorLine : String :=
  "data: \x7b\"type\":\"error\",\"error\":\x7b\"type\":\"overloaded_error\",\"message\":\"boom\"\x7d\x7d"

/-- Whether a scanned line is a payload line that decodes to an error event with a message. -/
def isErrorLine (unmarshal : String → Option ResponseEvent) (line : String) : Bool :=
  HasPrefix line "data: " &&
    match unmarshal (sliceFrom line 6) with
    | some event => decide (event.Type_ = "error" ∧ event.Error.Message ≠ "")
    | none => false

/-! ### The pieces `res_text` is built from

The same loop, recording each fragment appended to `res_all_text` as the pieces it is
concatenated from, so that a delimiter the translator inserts is told apart from the same
characters arriving in backend text. -/

/-- One operand of the concatenations that build `res_text`. -/
inductive Piece where
  | thinkOpen
  | thinkClose
  | toolOpen
  | toolClose
  | backend (s : String)
  deriving DecidableEq, Repr

/-- The string literal or event field a piece stands for. -/
def Piece.render : Piece → String
  | Piece.thinkOpen => "<think> "
  | Piece.thinkClose => "</think>\n"
  | Piece.toolOpen => "\n```\n "
  | Piece.toolClose => "\n```\n"
  | Piece.backend s => s

/-- The concatenation a list of pieces stands for. -/
def renderPieces (ps : List Piece) : String :=
  concatAll (ps.map Piece.render)

/-- The flags of `HandleResponse` and the pieces appended to `res_all_text` so far. -/
structure Trace where
  pieces : List Piece
  thinkingShown : Bool
  partial_json_shown : Bool
  deriving DecidableEq, Repr

/-- The pieces of `res_text` and the new flags for one decoded event, in the order the code
concatenates them; `none` when the event is an error event with a message (the function
returns). -/
def eventPieces (thinkingShown partial_json_shown : Bool) (event : ResponseEvent) :
    Option Trace :=
  if event.Type_ = "error" ∧ event.Error.Message ≠ "" then
    none
  else if event.Delta.Type_ = "text_delta" ∧ event.Delta.Text ≠ "" then
    let res_text := [Piece.backend event.Delta.Text]
    let res_text := if thinkingShown then Piece.thinkClose :: res_text else res_text
    let res_text := if partial_json_shown then Piece.toolClose :: res_text else res_text
    some { pieces := res_text, thinkingShown := false, partial_json_shown := false }
  else if event.Delta.Type_ = "thinking_delta" then
    let res_text := [Piece.backend event.Delta.THINKING]
    let res_text := if !thinkingShown then Piece.thinkOpen :: res_text else res_text
    some { pieces := res_text, thinkingShown := true, partial_json_shown := partial_json_shown }
  else if event.Delta.Type_ = "input_json_delta" then
    let res_text := [Piece.backend event.Delta.PartialJSON]
    let res_text := if !partial_json_shown then Piece.toolOpen :: res_text else res_text
    some { pieces := res_text, thinkingShown := thinkingShown, partial_json_shown := true }
  else
    some { pieces := [], thinkingShown := thinkingShown, partial_json_shown := partial_json_shown }

/-- The scanning loop of `HandleResponse` on pieces: same control flow as `scanLoop`. -/
def tracedLoop (unmarshal : String → Option ResponseEvent) (clientDone : Nat → Bool) :
    Nat → Bool → Bool → List String → Trace
  | _, th, pj, [] => { pieces := [], thinkingShown := th, partial_json_shown := pj }
  | i, th, pj, line :: rest =>
    if clientDone i then
      { pieces := [], thinkingShown := th, partial_json_shown := pj }
    else if !HasPrefix line "data: " then
      tracedLoop unmarshal clientDone (i + 1) th pj rest
    else
      match unmarshal (sliceFrom line 6) with
      | none => tracedLoop unmarshal clientDone (i + 1) th pj rest
      | some event =>
        match eventPieces th pj event with
        | none => { pieces := [], thinkingShown := th, partial_json_shown := pj }
        | some t =>
          let r := tracedLoop unmarshal clientDone (i + 1) t.thinkingShown t.partial_json_shown rest
          { r with pieces := t.pieces ++ r.pieces }

/-- The number of times a delimiter was inserted. -/
def inserted (p : Piece) (t : Trace) : Nat :=
  t.pieces.count p

/-! ## Values and maps -/

/-- A Go `interface{}` value of the kinds the client stores and sends as JSON. -/
inductive Value where
  | null
  | bool (b : Bool)
  | num (n : Int)
  | str (s : String)
  | list (xs : List Value)
  | map (kvs : List (String × Value))
  deriving Repr

/-- A Go `map[string]interface{}`: an association list in which every key occurs once. -/
abbrev GoMap := List (String × Value)

/-- The keys of a map. -/
def GoMap.keys (m : GoMap) : List String :=
  m.map Prod.fst

/-- Go `v, ok := m[key]`. -/
def GoMap.get? (m : GoMap) (key : String) : Option Value :=
  m.lookup key

/-- Go `_, exists := m[key]`. -/
def GoMap.has (m : GoMap) (key : String) : Bool :=
  (m.lookup key).isSome

/-- Go `m[key] = value`: overwrite the entry of `key`, or add one. -/
def GoMap.set : GoMap → String → Value → GoMap
  | [], key, value => [(key, value)]
  | (k, v) :: rest, key, value =>
    if k = key then (k, value) :: rest else (k, v) :: GoMap.set rest key value

/-- Go `delete(m, key)`. -/
def GoMap.delete (m : GoMap) (key : String) : GoMap :=
  m.filter (fun kv => kv.1 ≠ key)

/-! ## HTTP -/

/-- A request the client sends: method, URL and JSON body. The headers are fixed per call site
and carry no data of the operations below. -/
structure HttpRequest where
  method : String
  url : String
  body : Value
  deriving Repr

/-- What a request without a decoded body gives back: the transport error (if any), the status
code and the body text. -/
structure HttpResponse where
  requestErr : Option String
  StatusCode : Nat
  body : String
  deriving DecidableEq, Repr

/-! ## Tenant resolution (`GetOrgID`) -/

/-- One element of Go `OrgResponse`. -/
structure Org where
  ID : Int
  UUID : String
  Name : String
  RateLimitTier : String
  deriving DecidableEq, Repr

/-- The answer to the GET of the organization listing: the transport error (if any), the status
code, and the result of `json.Unmarshal(resp.Bytes(), &orgs)`. -/
structure OrgListing where
  requestErr : Option String
  StatusCode : Nat
  orgs : Except String (List Org)

/-- The loop `for _, org := range orgs` of `GetOrgID`: the first record of the default tier. -/
def firstDefaultTier : List Org → Option Org
  | [] => none
  | org :: rest =>
    if org.RateLimitTier = "default_claude_ai" then some org else firstDefaultTier rest

/-- Go `Client.GetOrgID`, given the answer of the backend. -/
def GetOrgID (resp : OrgListing) : Except String String :=
  match resp.requestErr with
  | some err => Except.error ("request failed: " ++ err)
  | none =>
    if resp.StatusCode ≠ 200 then
      Except.error ("unexpected status code: " ++ toString resp.StatusCode)
    else
      match resp.orgs with
      | Except.error err => Except.error ("failed to parse response: " ++ err)
      | Except.ok orgs =>
        match orgs with
        | [] => Except.error "no organizations found"
        | [org] => Except.ok org.UUID
        | _ =>
          match firstDefaultTier orgs with
          | some org => Except.ok org.UUID
          | none => Except.error "no default organization found"

/-! ## Account settings (`UpdateUserSetting`) -/

/-- The map literal `settings` of `UpdateUserSetting`. -/
def defaultSettings : GoMap :=
  [ ("input_menu_pinned_items", Value.null),
    ("has_seen_mm_examples", Value.null),
    ("has_seen_starter_prompts", Value.null),
    ("has_started_claudeai_onboarding", Value.bool true),
    ("has_finished_claudeai_onboarding", Value.bool true),
    ("dismissed_claudeai_banners", Value.list []),
    ("dismissed_artifacts_announcement", Value.null),
    ("preview_feature_uses_artifacts", Value.bool false),
    ("preview_feature_uses_latex", Value.null),
    ("preview_feature_uses_citations", Value.null),
    ("preview_feature_uses_harmony", Value.null),
    ("enabled_artifacts_attachments", Value.bool false),
    ("enabled_turmeric", Value.null),
    ("enable_chat_suggestions", Value.null),
    ("dismissed_artifact_feedback_form", Value.null),
    ("enabled_mm_pdfs", Value.null),
    ("enabled_gdrive", Value.null),
    ("enabled_bananagrams", Value.null),
    ("enabled_gdrive_indexing", Value.null),
    ("enabled_web_search", Value.bool true),
    ("enabled_compass", Value.null),
    ("enabled_sourdough", Value.null),
    ("enabled_foccacia", Value.null),
    ("dismissed_claude_code_spotlight", Value.null),
    ("enabled_geolocation", Value.null),
    ("enabled_mcp_tools", Value.null),
    ("paprika_mode", Value.null),
    ("enabled_monkeys_in_a_barrel", Value.null) ]

/-- What a call did besides returning: the returned error (`none` is `nil`) and the requests
issued, in order. -/
structure CallResult where
  err : Option String
  requests : List HttpRequest
  deriving Repr

/-- Go `Client.UpdateUserSetting`. `MirrorProxy` is `config.ConfigInstance.MirrorProxy`, `put`
answers the PUT request. -/
def UpdateUserSetting (MirrorProxy : String) (put : HttpRequest → HttpResponse)
    (key : String) (value : Value) : CallResult :=
  let url := MirrorProxy ++ "/api/account?statsig_hashing_algorithm=djb2"
  let settings := defaultSettings
  if settings.has key then
    let settings := settings.set key value
    let requestBody : GoMap := [("settings", Value.map settings)]
    let request : HttpRequest := { method := "PUT", url := url, body := Value.map requestBody }
    let resp := put request
    match resp.requestErr with
    | some err => { err := some ("request failed: " ++ err), requests := [request] }
    | none =>
      if resp.StatusCode ≠ 200 ∧ resp.StatusCode ≠ 202 then
        { err := some ("unexpected status code: " ++ toString resp.StatusCode ++
            ", response: " ++ resp.body),
          requests := [request] }
      else
        { err := none, requests := [request] }
  else
    { err := some ("unknown setting key: " ++ key), requests := [] }

/-! ## The client -/

/-- Go `Client`, without the HTTP client handle. `defaultAttrs` is the map the field refers
to. -/
structure Client where
  SessionKey : String
  orgID : String
  cookie : String
  model : String
  thinking : String
  defaultAttrs : GoMap
  deriving Repr

/-- Go `NewClient`: the fields of the returned client (the transport setup is not modelled). -/
def NewClient (sessionKey : String) (_proxy : String) (model : String) (thinking : String)
    (_cookie : String) : Client :=
  { SessionKey := sessionKey,
    orgID := "",
    cookie := "",
    model := model,
    thinking := thinking,
    defaultAttrs :=
      [ ("personalized_styles", Value.list [Value.map
          [ ("type", Value.str "default"),
            ("key", Value.str "Default"),
            ("name", Value.str "Normal"),
            ("nameKey", Value.str "normal_style_name"),
            ("prompt", Value.str "Normal"),
            ("summary", Value.str "Default responses from Claude"),
            ("summaryKey", Value.str "normal_style_summary"),
            ("isDefault", Value.bool true) ]]),
        ("tools", Value.list
          [ Value.map [("type", Value.str "web_search_v0"), ("name", Value.str "web_search")],
            Value.map [("type", Value.str "repl_v0"), ("name", Value.str "repl")] ]),
        ("parent_message_uuid", Value.str "00000000-0000-4000-8000-000000000000"),
        ("attachments", Value.list []),
        ("files", Value.list []),
        ("sync_sources", Value.list []),
        ("locale", Value.str "en-US"),
        ("rendering_mode", Value.str "messages"),
        ("timezone", Value.str "America/New_York") ] }

/-- Go `Client.SetOrgID`. -/
def SetOrgID (c : Client) (orgID : String) : Client :=
  { c with orgID := orgID }

/-! ## Conversation creation (`CreateConversation`) -/

/-- The answer to the POST that creates a conversation: the transport error (if any), the
status code, and the result of `json.Unmarshal(resp.Bytes(), &result)` into a map. -/
structure CreateResponse where
  requestErr : Option String
  StatusCode : Nat
  result : Except String GoMap

/-- What `CreateConversation` did: the returned pair, the client afterwards, and the requests
issued, in order. -/
structure CreateResult where
  uuid : String
  err : Option String
  client : Client
  requests : List HttpRequest

/-- The block `if strings.HasSuffix(c.model, "-think") { ... } else { ... }` of
`CreateConversation`: the client afterwards and the requests issued. An error returned by
`UpdateUserSetting` is logged and dropped. -/
def updateReasoningMode (MirrorProxy : String) (put : HttpRequest → HttpResponse)
    (c : Client) : Client × List HttpRequest :=
  if HasSuffix c.model "-think" then
    let c := { c with model := TrimSuffix c.model "-think" }
    if c.thinking = "null" ∨ c.thinking = "false" then
      (c, (UpdateUserSetting MirrorProxy put "paprika_mode" (Value.str "extended")).requests)
    else (c, [])
  else
    if c.thinking = "null" ∨ c.thinking = "true" then
      (c, (UpdateUserSetting MirrorProxy put "paprika_mode" Value.null).requests)
    else (c, [])

/-- Go `Client.CreateConversation`. `put` answers the settings update, `post` the creation
request, `newUUID` is the value of `uuid.New().String()`. -/
def CreateConversation (MirrorProxy : String) (put : HttpRequest → HttpResponse)
    (post : HttpRequest → CreateResponse) (newUUID : String) (c : Client) : CreateResult :=
  if c.orgID = "" then
    { uuid := "", err := some "organization ID not set", client := c, requests := [] }
  else
    let url := MirrorProxy ++ "/api/organizations/" ++ c.orgID ++ "/chat_conversations"
    let updated := updateReasoningMode MirrorProxy put c
    let c := updated.1
    let updates := updated.2
    let requestBody : GoMap :=
      [ ("model", Value.str c.model),
        ("uuid", Value.str newUUID),
        ("name", Value.str ""),
        ("include_conversation_preferences", Value.bool true) ]
    let requestBody :=
      if c.model = "claude-sonnet-4-20250514" then requestBody.delete "model" else requestBody
    let request : HttpRequest := { method := "POST", url := url, body := Value.map requestBody }
    let resp := post request
    match resp.requestErr with
    | some err =>
      { uuid := "", err := some ("request failed: " ++ err), client := c,
        requests := updates ++ [request] }
    | none =>
      if resp.StatusCode ≠ 201 then
        { uuid := "", err := some ("unexpected status code: " ++ toString resp.StatusCode),
          client := c, requests := updates ++ [request] }
      else
        match resp.result with
        | Except.error err =>
          { uuid := "", err := some ("failed to parse response: " ++ err), client := c,
            requests := updates ++ [request] }
        | Except.ok result =>
          match result.get? "uuid" with
          | some (Value.str uuid) =>
            { uuid := uuid, err := none, client := c, requests := updates ++ [request] }
          | _ =>
            { uuid := "", err := some "conversation UUID not found in response", client := c,
              requests := updates ++ [request] }

/-! ## Sending a prompt (`SendMessage`) -/

/-- The answer to the completion request: the transport error (if any), the status code, and
the body as the scanner of `HandleResponse` will read it. -/
structure CompletionResponse where
  requestErr : Option String
  StatusCode : Nat
  lines : List String
  scanErr : Option String

/-- What `SendMessage` did: the returned pair, the client afterwards, the requests issued and
the calls on the caller's response writer. -/
structure SendResult where
  status : Nat
  err : Option String
  client : Client
  requests : List HttpRequest
  sink : List SinkCall

/-- Go `Client.SendMessage`. The variable `requestBody` is assigned the map `c.defaultAttrs`
itself, so the two assignments into `requestBody` are assignments into the client's map. -/
def SendMessage (MirrorProxy : String) (post : HttpRequest → CompletionResponse)
    (unmarshal : String → Option ResponseEvent) (clientDone : Nat → Bool)
    (c : Client) (conversationID : String) (message : String) (stream : Bool) : SendResult :=
  if c.orgID = "" then
    { status := 500, err := some "organization ID not set", client := c, requests := [],
      sink := [] }
  else
    let url := MirrorProxy ++ "/api/organizations/" ++ c.orgID ++ "/chat_conversations/" ++
      conversationID ++ "/completion"
    let requestBody := c.defaultAttrs
    let requestBody := requestBody.set "prompt" (Value.str message)
    let requestBody :=
      if c.model ≠ "claude-sonnet-4-20250514" then requestBody.set "model" (Value.str c.model)
      else requestBody
    let c := { c with defaultAttrs := requestBody }
    let request : HttpRequest := { method := "POST", url := url, body := Value.map requestBody }
    let resp := post request
    match resp.requestErr with
    | some err =>
      { status := 500, err := some ("request failed: " ++ err), client := c,
        requests := [request], sink := [] }
    | none =>
      if resp.StatusCode = 429 then
        { status := 429, err := some "rate limit exceeded", client := c, requests := [request],
          sink := [] }
      else if resp.StatusCode ≠ 200 then
        { status := resp.StatusCode,
          err := some ("unexpected status code: " ++ toString resp.StatusCode),
          client := c, requests := [request], sink := [] }
      else
        let r := HandleResponse unmarshal stream clientDone resp.lines resp.scanErr
        { status := 200, err := r.err, client := c, requests := [request], sink := r.calls }

/-! ## Attachment upload (`UploadFile`) -/

/-- The text before and after the first occurrence of `sep`, if there is one. -/
def cutAt (sep : Char) : List Char → Option (List Char × List Char)
  | [] => none
  | ch :: rest =>
    if ch = sep then some ([], rest)
    else
      match cutAt sep rest with
      | none => none
      | some (before, after) => some (ch :: before, after)

/-- Go `strings.SplitN(s, sep, 2)` for a separator of one ASCII character. -/
def SplitN2 (s : String) (sep : Char) : List String :=
  match cutAt sep s.data with
  | none => [s]
  | some (before, after) => [⟨before⟩, ⟨after⟩]

/-- The value of a character in the standard base64 alphabet. -/
def base64Value (ch : Char) : Option Nat :=
  if 'A'.toNat ≤ ch.toNat ∧ ch.toNat ≤ 'Z'.toNat then some (ch.toNat - 'A'.toNat)
  else if 'a'.toNat ≤ ch.toNat ∧ ch.toNat ≤ 'z'.toNat then some (ch.toNat - 'a'.toNat + 26)
  else if '0'.toNat ≤ ch.toNat ∧ ch.toNat ≤ '9'.toNat then some (ch.toNat - '0'.toNat + 52)
  else if ch = '+' then some 62
  else if ch = '/' then some 63
  else none

/-- The bytes of padded base64 text without line breaks: groups of four characters, the last
of which may end in one or two padding characters; bits left over in a padded group are
dropped. -/
def decodeQuanta : List Char → Option (List Nat)
  | [] => some []
  | a :: b :: c :: d :: rest =>
    match base64Value a, base64Value b with
    | some va, some vb =>
      if c = '=' ∧ d = '=' ∧ rest = [] then
        some [(va * 262144 + vb * 4096) / 65536 % 256]
      else
        match base64Value c with
        | none => none
        | some vc =>
          if d = '=' ∧ rest = [] then
            some [(va * 262144 + vb * 4096 + vc * 64) / 65536 % 256,
                  (va * 262144 + vb * 4096 + vc * 64) / 256 % 256]
          else
            match base64Value d, decodeQuanta rest with
            | some vd, some bytes =>
              some ((va * 262144 + vb * 4096 + vc * 64 + vd) / 65536 % 256 ::
                    (va * 262144 + vb * 4096 + vc * 64 + vd) / 256 % 256 ::
                    (va * 262144 + vb * 4096 + vc * 64 + vd) % 256 :: bytes)
            | _, _ => none
    | _, _ => none
  | _ => none

/-- A model of Go `base64.StdEncoding.DecodeString` (standard library): carriage returns and
line feeds are skipped, the rest is padded base64; `none` stands for a returned error. -/
def stdDecodeString (s : String) : Option (List Nat) :=
  decodeQuanta (s.data.filter (fun ch => ch ≠ '\r' ∧ ch ≠ '\n'))

/-- The multipart POST of `UploadFile`: URL, form file name and file bytes. -/
structure UploadRequest where
  url : String
  filename : String
  fileBytes : List Nat
  deriving DecidableEq, Repr

/-- The answer to an upload: the transport error (if any), the status code, the body text, and
the field `file_uuid` that `json.Unmarshal` decodes from the body. -/
structure UploadResponse where
  requestErr : Option String
  StatusCode : Nat
  body : String
  result : Except String String

/-- The `switch contentType` of `UploadFile`. -/
def filenameFor (contentType : String) : String :=
  if contentType = "image/jpeg" then "image.jpg"
  else if contentType = "image/png" then "image.png"
  else if contentType = "application/pdf" then "document.pdf"
  else "file"

/-- What the loop body of `UploadFile` does with one entry up to the POST: it skips the entry,
returns an error, or has a request to send. -/
inductive EntryOutcome where
  | skipped
  | failed (err : String)
  | upload (request : UploadRequest)
  deriving DecidableEq, Repr

/-- The loop body of `UploadFile` from `if fd == ""` to the construction of the request.
`DecodeString` is `base64.StdEncoding.DecodeString`, with `none` for a returned error (its
error text, which the code appends to the message, is left out). -/
def prepareEntry (MirrorProxy : String) (DecodeString : String → Option (List Nat))
    (orgID : String) (fd : String) : EntryOutcome :=
  if fd = "" then EntryOutcome.skipped
  else
    match SplitN2 fd ',' with
    | [parts0, parts1] =>
      match SplitN2 parts0 ':' with
      | [_, metaParts1] =>
        match SplitN2 metaParts1 ';' with
        | [metaInfo0, metaInfo1] =>
          if metaInfo1 ≠ "base64" then EntryOutcome.failed "invalid encoding in file data"
          else
            let contentType := metaInfo0
            match DecodeString parts1 with
            | none => EntryOutcome.failed "failed to decode base64 data"
            | some fileBytes =>
              let filename := filenameFor contentType
              let url := MirrorProxy ++ "/api/" ++ orgID ++ "/upload"
              EntryOutcome.upload { url := url, filename := filename, fileBytes := fileBytes }
        | _ => EntryOutcome.failed "invalid encoding in file data"
      | _ => EntryOutcome.failed "invalid content type in file data"
    | _ => EntryOutcome.failed "invalid file data format"

/-- What `UploadFile` did: the returned error (`none` is `nil`), the client afterwards and the
uploads issued, in order. -/
structure UploadResult where
  err : Option String
  client : Client
  uploads : List UploadRequest

/-- The loop `for _, fd := range fileData` of `UploadFile`. -/
def uploadLoop (MirrorProxy : String) (DecodeString : String → Option (List Nat))
    (post : UploadRequest → UploadResponse) : Client → List String → UploadResult
  | c, [] => { err := none, client := c, uploads := [] }
  | c, fd :: rest =>
    match prepareEntry MirrorProxy DecodeString c.orgID fd with
    | EntryOutcome.skipped => uploadLoop MirrorProxy DecodeString post c rest
    | EntryOutcome.failed err => { err := some err, client := c, uploads := [] }
    | EntryOutcome.upload request =>
      let resp := post request
      match resp.requestErr with
      | some err => { err := some ("request failed: " ++ err), client := c, uploads := [request] }
      | none =>
        if resp.StatusCode ≠ 200 then
          { err := some ("unexpected status code: " ++ toString resp.StatusCode ++
              ", response: " ++ resp.body),
            client := c, uploads := [request] }
        else
          match resp.result with
          | Except.error err =>
            { err := some ("failed to parse response: " ++ err), client := c,
              uploads := [request] }
          | Except.ok FileUUID =>
            if FileUUID = "" then
              { err := some "file UUID not found in response", client := c,
                uploads := [request] }
            else
              match c.defaultAttrs.get? "files" with
              | some (Value.list files) =>
                let c := { c with defaultAttrs :=
                  c.defaultAttrs.set "files" (Value.list (files ++ [Value.str FileUUID])) }
                let r := uploadLoop MirrorProxy DecodeString post c rest
                { r with uploads := request :: r.uploads }
              | _ =>
                { err := some "panic: interface conversion", client := c,
                  uploads := [request] }

/-- Go `Client.UploadFile`. -/
def UploadFile (MirrorProxy : String) (DecodeString : String → Option (List Nat))
    (post : UploadRequest → UploadResponse) (c : Client) (fileData : List String) :
    UploadResult :=
  if c.orgID = "" then
    { err := some "organization ID not set", client := c, uploads := [] }
  else if fileData.length = 0 then
    { err := some "empty file data", client := c, uploads := [] }
  else
    let c :=
      if !c.defaultAttrs.has "files" then
        { c with defaultAttrs := c.defaultAttrs.set "files" (Value.list []) }
      else c
    uploadLoop MirrorProxy DecodeString post c fileData

/-- Go `Client.SetBigContext`; `len(context)` is the length in bytes. -/
def SetBigContext (c : Client) (context : String) : Client :=
  let attachment : GoMap :=
    [ ("file_name", Value.str "context.txt"),
      ("file_type", Value.str "text/plain"),
      ("file_size", Value.num context.utf8ByteSize),
      ("extracted_content", Value.str context) ]
  { c with defaultAttrs := c.defaultAttrs.set "attachments" (Value.list [Value.map attachment]) }

/-! ## Theorems -/

/-! ### Auxiliary facts on strings and call logs -/

theorem concatAll_append (xs ys : List String) :
    concatAll (xs ++ ys) = concatAll xs ++ concatAll ys := by
  induction xs with
  | nil => simp [concatAll]
  | cons x xs ih => simp [concatAll, ih, String.append_assoc]

theorem sinkTexts_append (xs ys : List SinkCall) :
    sinkTexts (xs ++ ys) = sinkTexts xs ++ sinkTexts ys := by
  induction xs with
  | nil => rfl
  | cons x xs ih => cases x <;> simp [sinkTexts, ih]

theorem sinkTexts_chunkCalls_true (t : String) : sinkTexts (chunkCalls true t) = [t] := by
  simp [chunkCalls, sinkTexts]

theorem chunkCalls_false (t : String) : chunkCalls false t = [] := by
  simp [chunkCalls]

/-! ### One event -/

/-- An event that is not an error event never makes the function return; the two modes reach
the same state, aggregated mode calls the sink for nothing, streaming mode hands over exactly
what is appended to `res_all_text`. -/
theorem handleEvent_of_not_error (st : LoopState) (ev : ResponseEvent)
    (h : ¬ (ev.Type_ = "error" ∧ ev.Error.Message ≠ "")) :
    ∃ st1 calls, handleEvent false st ev = Step.cont st1 [] ∧
      handleEvent true st ev = Step.cont st1 calls ∧
      st1.res_all_text = st.res_all_text ++ concatAll (sinkTexts calls) := by
  unfold handleEvent
  rw [if_neg h, if_neg h]
  by_cases h1 : ev.Delta.Type_ = "text_delta" ∧ ev.Delta.Text ≠ ""
  · rw [if_pos h1, if_pos h1]
    exact ⟨_, _, by simp [chunkCalls], rfl, by simp [sinkTexts_chunkCalls_true, concatAll]⟩
  · rw [if_neg h1, if_neg h1]
    by_cases h2 : ev.Delta.Type_ = "thinking_delta"
    · rw [if_pos h2, if_pos h2]
      exact ⟨_, _, by simp [chunkCalls], rfl, by simp [sinkTexts_chunkCalls_true, concatAll]⟩
    · rw [if_neg h2, if_neg h2]
      by_cases h3 : ev.Delta.Type_ = "input_json_delta"
      · rw [if_pos h3, if_pos h3]
        exact ⟨_, _, by simp [chunkCalls], rfl,
          by simp [sinkTexts_chunkCalls_true, concatAll]⟩
      · rw [if_neg h3, if_neg h3]
        exact ⟨_, _, rfl, rfl, by simp [sinkTexts, concatAll]⟩

theorem handleEvent_of_error (stream : Bool) (st : LoopState) (ev : ResponseEvent)
    (h : ev.Type_ = "error" ∧ ev.Error.Message ≠ "") :
    handleEvent stream st ev = Step.ret [SinkCall.ReturnOpenAIResponse ev.Error.Message stream] := by
  unfold handleEvent
  rw [if_pos h]

/-! ### The loop -/

theorem scanLoop_cons_cancel (unmarshal : String → Option ResponseEvent) (stream : Bool)
    (clientDone : Nat → Bool) (i : Nat) (st : LoopState) (line : String) (rest : List String)
    (hc : clientDone i = true) :
    scanLoop unmarshal stream clientDone i st (line :: rest) =
      { calls := [], st := st, returned := true } := by
  simp [scanLoop, hc]

theorem scanLoop_cons_skip (unmarshal : String → Option ResponseEvent) (stream : Bool)
    (clientDone : Nat → Bool) (i : Nat) (st : LoopState) (line : String) (rest : List String)
    (hc : clientDone i = false) (hp : HasPrefix line "data: " = false) :
    scanLoop unmarshal stream clientDone i st (line :: rest) =
      scanLoop unmarshal stream clientDone (i + 1) st rest := by
  simp [scanLoop, hc, hp]

theorem scanLoop_cons_undecoded (unmarshal : String → Option ResponseEvent) (stream : Bool)
    (clientDone : Nat → Bool) (i : Nat) (st : LoopState) (line : String) (rest : List String)
    (hc : clientDone i = false) (hp : HasPrefix line "data: " = true)
    (hu : unmarshal (sliceFrom line 6) = none) :
    scanLoop unmarshal stream clientDone i st (line :: rest) =
      scanLoop unmarshal stream clientDone (i + 1) st rest := by
  simp [scanLoop, hc, hp, hu]

theorem scanLoop_cons_ret (unmarshal : String → Option ResponseEvent) (stream : Bool)
    (clientDone : Nat → Bool) (i : Nat) (st : LoopState) (line : String) (rest : List String)
    (ev : ResponseEvent) (calls : List SinkCall)
    (hc : clientDone i = false) (hp : HasPrefix line "data: " = true)
    (hu : unmarshal (sliceFrom line 6) = some ev)
    (he : handleEvent stream st ev = Step.ret calls) :
    scanLoop unmarshal stream clientDone i st (line :: rest) =
      { calls := calls, st := st, returned := true } := by
  simp [scanLoop, hc, hp, hu, he]

theorem scanLoop_cons_cont (unmarshal : String → Option ResponseEvent) (stream : Bool)
    (clientDone : Nat → Bool) (i : Nat) (st : LoopState) (line : String) (rest : List String)
    (ev : ResponseEvent) (st1 : LoopState) (calls : List SinkCall)
    (hc : clientDone i = false) (hp : HasPrefix line "data: " = true)
    (hu : unmarshal (sliceFrom line 6) = some ev)
    (he : handleEvent stream st ev = Step.cont st1 calls) :
    scanLoop unmarshal stream clientDone i st (line :: rest) =
      { calls := calls ++ (scanLoop unmarshal stream clientDone (i + 1) st1 rest).calls,
        st := (scanLoop unmarshal stream clientDone (i + 1) st1 rest).st,
        returned := (scanLoop unmarshal stream clientDone (i + 1) st1 rest).returned } := by
  simp [scanLoop, hc, hp, hu, he]

/-- The loop over `pre ++ post` is the loop over `pre`, followed, unless that returned, by the
loop over `post` from the state and iteration number reached. -/
theorem scanLoop_append (unmarshal : String → Option ResponseEvent) (stream : Bool)
    (clientDone : Nat → Bool) (pre post : List String) :
    ∀ (i : Nat) (st : LoopState),
      scanLoop unmarshal stream clientDone i st (pre ++ post) =
        if (scanLoop unmarshal stream clientDone i st pre).returned then
          scanLoop unmarshal stream clientDone i st pre
        else
          { calls := (scanLoop unmarshal stream clientDone i st pre).calls ++
              (scanLoop unmarshal stream clientDone (i + pre.length)
                (scanLoop unmarshal stream clientDone i st pre).st post).calls,
            st := (scanLoop unmarshal stream clientDone (i + pre.length)
                (scanLoop unmarshal stream clientDone i st pre).st post).st,
            returned := (scanLoop unmarshal stream clientDone (i + pre.length)
                (scanLoop unmarshal stream clientDone i st pre).st post).returned } := by
  induction pre with
  | nil => intro i st; simp [scanLoop]
  | cons line rest ih =>
    intro i st
    have hidx : i + (line :: rest).length = i + 1 + rest.length := by
      simp only [List.length_cons]; omega
    rw [hidx, List.cons_append]
    cases hc : clientDone i with
    | true =>
      rw [scanLoop_cons_cancel _ _ _ _ _ _ _ hc, scanLoop_cons_cancel _ _ _ _ _ _ _ hc]
      simp
    | false =>
      cases hp : HasPrefix line "data: " with
      | false =>
        rw [scanLoop_cons_skip _ _ _ _ _ _ _ hc hp, scanLoop_cons_skip _ _ _ _ _ _ _ hc hp]
        exact ih (i + 1) st
      | true =>
        cases hu : unmarshal (sliceFrom line 6) with
        | none =>
          rw [scanLoop_cons_undecoded _ _ _ _ _ _ _ hc hp hu,
            scanLoop_cons_undecoded _ _ _ _ _ _ _ hc hp hu]
          exact ih (i + 1) st
        | some ev =>
          cases he : handleEvent stream st ev with
          | ret calls =>
            rw [scanLoop_cons_ret _ _ _ _ _ _ _ _ _ hc hp hu he,
              scanLoop_cons_ret _ _ _ _ _ _ _ _ _ hc hp hu he]
            simp
          | cont st1 calls =>
            rw [scanLoop_cons_cont _ _ _ _ _ _ _ _ _ _ hc hp hu he,
              scanLoop_cons_cont _ _ _ _ _ _ _ _ _ _ hc hp hu he, ih (i + 1) st1]
            cases hr : (scanLoop unmarshal stream clientDone (i + 1) st1 rest).returned with
            | true => simp [hr]
            | false => simp [hr, List.append_assoc]

/-- Without cancellation and without an error event the loop runs to the end of the lines in
both modes, through the same states; aggregated mode calls the sink for nothing and
`res_all_text` grows by exactly the texts streaming mode hands over. -/
theorem scanLoop_modes (unmarshal : String → Option ResponseEvent) (clientDone : Nat → Bool)
    (lines : List String) :
    ∀ (i : Nat) (st : LoopState),
      (∀ j, j < lines.length → clientDone (i + j) = false) →
      (∀ l ∈ lines, isErrorLine unmarshal l = false) →
      (scanLoop unmarshal false clientDone i st lines).calls = [] ∧
      (scanLoop unmarshal false clientDone i st lines).returned = false ∧
      (scanLoop unmarshal true clientDone i st lines).returned = false ∧
      (scanLoop unmarshal false clientDone i st lines).st =
        (scanLoop unmarshal true clientDone i st lines).st ∧
      (scanLoop unmarshal true clientDone i st lines).st.res_all_text =
        st.res_all_text ++
          concatAll (sinkTexts (scanLoop unmarshal true clientDone i st lines).calls) := by
  induction lines with
  | nil => intro i st _ _; simp [scanLoop, sinkTexts, concatAll]
  | cons line rest ih =>
    intro i st hc he
    have hc0 : clientDone i = false := by simpa using hc 0 (by simp)
    have hcr : ∀ j, j < rest.length → clientDone (i + 1 + j) = false := by
      intro j hj
      have := hc (j + 1) (by simp; omega)
      rwa [show i + (j + 1) = i + 1 + j by omega] at this
    have her : ∀ l ∈ rest, isErrorLine unmarshal l = false :=
      fun l hl => he l (List.mem_cons_of_mem _ hl)
    have hel : isErrorLine unmarshal line = false := he line (List.mem_cons_self _ _)
    cases hp : HasPrefix line "data: " with
    | false =>
      rw [scanLoop_cons_skip _ _ _ _ _ _ _ hc0 hp, scanLoop_cons_skip _ _ _ _ _ _ _ hc0 hp]
      exact ih (i + 1) st hcr her
    | true =>
      cases hu : unmarshal (sliceFrom line 6) with
      | none =>
        rw [scanLoop_cons_undecoded _ _ _ _ _ _ _ hc0 hp hu,
          scanLoop_cons_undecoded _ _ _ _ _ _ _ hc0 hp hu]
        exact ih (i + 1) st hcr her
      | some ev =>
        have hne : ¬ (ev.Type_ = "error" ∧ ev.Error.Message ≠ "") := by
          simpa [isErrorLine, hp, hu] using hel
        obtain ⟨st1, calls, h1, h2, h3⟩ := handleEvent_of_not_error st ev hne
        rw [scanLoop_cons_cont _ _ _ _ _ _ _ _ _ _ hc0 hp hu h1,
          scanLoop_cons_cont _ _ _ _ _ _ _ _ _ _ hc0 hp hu h2]
        obtain ⟨a1, a2, a3, a4, a5⟩ := ih (i + 1) st1 hcr her
        refine ⟨by simpa using a1, a2, a3, a4, ?_⟩
        simp only []
        rw [a5, h3, sinkTexts_append, concatAll_append, String.append_assoc]

/-! ### The loop on pieces -/

theorem renderPieces_append (xs ys : List Piece) :
    renderPieces (xs ++ ys) = renderPieces xs ++ renderPieces ys := by
  simp [renderPieces, concatAll_append]

/-- On an error event both loops stop. -/
theorem eventPieces_of_error (th pj : Bool) (ev : ResponseEvent)
    (h : ev.Type_ = "error" ∧ ev.Error.Message ≠ "") : eventPieces th pj ev = none := by
  unfold eventPieces
  rw [if_pos h]

/-- On any other event the pieces render to the text appended to `res_all_text`, the flags
agree, and each kind of delimiter is inserted so that opens exceed closes by one exactly when
the segment is open. -/
theorem eventPieces_of_not_error (stream : Bool) (st : LoopState) (ev : ResponseEvent)
    (h : ¬ (ev.Type_ = "error" ∧ ev.Error.Message ≠ "")) :
    ∃ t, eventPieces st.thinkingShown st.partial_json_shown ev = some t ∧
      handleEvent stream st ev =
        Step.cont { thinkingShown := t.thinkingShown,
                    res_all_text := st.res_all_text ++ renderPieces t.pieces,
                    partial_json_shown := t.partial_json_shown }
          (if t.pieces = [] then [] else chunkCalls stream (renderPieces t.pieces)) ∧
      t.pieces.count Piece.thinkOpen + (if st.thinkingShown then 1 else 0) =
        t.pieces.count Piece.thinkClose + (if t.thinkingShown then 1 else 0) ∧
      t.pieces.count Piece.toolOpen + (if st.partial_json_shown then 1 else 0) =
        t.pieces.count Piece.toolClose + (if t.partial_json_shown then 1 else 0) := by
  obtain ⟨th, txt, pj⟩ := st
  unfold eventPieces handleEvent
  rw [if_neg h, if_neg h]
  by_cases h1 : ev.Delta.Type_ = "text_delta" ∧ ev.Delta.Text ≠ ""
  · rw [if_pos h1, if_pos h1]
    refine ⟨_, rfl, ?_, ?_, ?_⟩ <;>
      cases th <;> cases pj <;>
      simp [renderPieces, concatAll, Piece.render, List.count_cons]
  · rw [if_neg h1, if_neg h1]
    by_cases h2 : ev.Delta.Type_ = "thinking_delta"
    · rw [if_pos h2, if_pos h2]
      refine ⟨_, rfl, ?_, ?_, ?_⟩ <;>
        cases th <;> cases pj <;>
        simp [renderPieces, concatAll, Piece.render, List.count_cons]
    · rw [if_neg h2, if_neg h2]
      by_cases h3 : ev.Delta.Type_ = "input_json_delta"
      · rw [if_pos h3, if_pos h3]
        refine ⟨_, rfl, ?_, ?_, ?_⟩ <;>
          cases th <;> cases pj <;>
          simp [renderPieces, concatAll, Piece.render, List.count_cons]
      · rw [if_neg h3, if_neg h3]
        refine ⟨_, rfl, ?_, ?_, ?_⟩ <;>
          simp [renderPieces, concatAll]

theorem tracedLoop_cons_cancel (unmarshal : String → Option ResponseEvent)
    (clientDone : Nat → Bool) (i : Nat) (th pj : Bool) (line : String) (rest : List String)
    (hc : clientDone i = true) :
    tracedLoop unmarshal clientDone i th pj (line :: rest) =
      { pieces := [], thinkingShown := th, partial_json_shown := pj } := by
  simp [tracedLoop, hc]

theorem tracedLoop_cons_skip (unmarshal : String → Option ResponseEvent)
    (clientDone : Nat → Bool) (i : Nat) (th pj : Bool) (line : String) (rest : List String)
    (hc : clientDone i = false) (hp : HasPrefix line "data: " = false) :
    tracedLoop unmarshal clientDone i th pj (line :: rest) =
      tracedLoop unmarshal clientDone (i + 1) th pj rest := by
  simp [tracedLoop, hc, hp]

theorem tracedLoop_cons_undecoded (unmarshal : String → Option ResponseEvent)
    (clientDone : Nat → Bool) (i : Nat) (th pj : Bool) (line : String) (rest : List String)
    (hc : clientDone i = false) (hp : HasPrefix line "data: " = true)
    (hu : unmarshal (sliceFrom line 6) = none) :
    tracedLoop unmarshal clientDone i th pj (line :: rest) =
      tracedLoop unmarshal clientDone (i + 1) th pj rest := by
  simp [tracedLoop, hc, hp, hu]

theorem tracedLoop_cons_ret (unmarshal : String → Option ResponseEvent)
    (clientDone : Nat → Bool) (i : Nat) (th pj : Bool) (line : String) (rest : List String)
    (ev : ResponseEvent)
    (hc : clientDone i = false) (hp : HasPrefix line "data: " = true)
    (hu : unmarshal (sliceFrom line 6) = some ev)
    (he : eventPieces th pj ev = none) :
    tracedLoop unmarshal clientDone i th pj (line :: rest) =
      { pieces := [], thinkingShown := th, partial_json_shown := pj } := by
  simp [tracedLoop, hc, hp, hu, he]

theorem tracedLoop_cons_cont (unmarshal : String → Option ResponseEvent)
    (clientDone : Nat → Bool) (i : Nat) (th pj : Bool) (line : String) (rest : List String)
    (ev : ResponseEvent) (t : Trace)
    (hc : clientDone i = false) (hp : HasPrefix line "data: " = true)
    (hu : unmarshal (sliceFrom line 6) = some ev)
    (he : eventPieces th pj ev = some t) :
    tracedLoop unmarshal clientDone i th pj (line :: rest) =
      { pieces := t.pieces ++
          (tracedLoop unmarshal clientDone (i + 1) t.thinkingShown t.partial_json_shown rest).pieces,
        thinkingShown :=
          (tracedLoop unmarshal clientDone (i + 1) t.thinkingShown
            t.partial_json_shown rest).thinkingShown,
        partial_json_shown :=
          (tracedLoop unmarshal clientDone (i + 1) t.thinkingShown
            t.partial_json_shown rest).partial_json_shown } := by
  simp [tracedLoop, hc, hp, hu, he]

/-- The loop on pieces follows the loop of `HandleResponse`: same flags, `res_all_text` grows
by the rendered pieces, and for each kind of delimiter the opens inserted exceed the closes
inserted by one exactly when the segment is open at the end (counting a segment open at the
start as one open). -/
theorem tracedLoop_spec (unmarshal : String → Option ResponseEvent) (stream : Bool)
    (clientDone : Nat → Bool) (lines : List String) :
    ∀ (i : Nat) (st : LoopState),
      (scanLoop unmarshal stream clientDone i st lines).st.thinkingShown =
        (tracedLoop unmarshal clientDone i st.thinkingShown st.partial_json_shown
          lines).thinkingShown ∧
      (scanLoop unmarshal stream clientDone i st lines).st.partial_json_shown =
        (tracedLoop unmarshal clientDone i st.thinkingShown st.partial_json_shown
          lines).partial_json_shown ∧
      (scanLoop unmarshal stream clientDone i st lines).st.res_all_text =
        st.res_all_text ++ renderPieces
          (tracedLoop unmarshal clientDone i st.thinkingShown st.partial_json_shown lines).pieces ∧
      (tracedLoop unmarshal clientDone i st.thinkingShown st.partial_json_shown
          lines).pieces.count Piece.thinkOpen + (if st.thinkingShown then 1 else 0) =
        (tracedLoop unmarshal clientDone i st.thinkingShown st.partial_json_shown
          lines).pieces.count Piece.thinkClose +
          (if (tracedLoop unmarshal clientDone i st.thinkingShown st.partial_json_shown
            lines).thinkingShown then 1 else 0) ∧
      (tracedLoop unmarshal clientDone i st.thinkingShown st.partial_json_shown
          lines).pieces.count Piece.toolOpen + (if st.partial_json_shown then 1 else 0) =
        (tracedLoop unmarshal clientDone i st.thinkingShown st.partial_json_shown
          lines).pieces.count Piece.toolClose +
          (if (tracedLoop unmarshal clientDone i st.thinkingShown st.partial_json_shown
            lines).partial_json_shown then 1 else 0) := by
  induction lines with
  | nil => intro i st; simp [scanLoop, tracedLoop, renderPieces, concatAll]
  | cons line rest ih =>
    intro i st
    cases hc : clientDone i with
    | true =>
      rw [scanLoop_cons_cancel _ _ _ _ _ _ _ hc, tracedLoop_cons_cancel _ _ _ _ _ _ _ hc]
      simp [renderPieces, concatAll]
    | false =>
      cases hp : HasPrefix line "data: " with
      | false =>
        rw [scanLoop_cons_skip _ _ _ _ _ _ _ hc hp, tracedLoop_cons_skip _ _ _ _ _ _ _ hc hp]
        exact ih (i + 1) st
      | true =>
        cases hu : unmarshal (sliceFrom line 6) with
        | none =>
          rw [scanLoop_cons_undecoded _ _ _ _ _ _ _ hc hp hu,
            tracedLoop_cons_undecoded _ _ _ _ _ _ _ hc hp hu]
          exact ih (i + 1) st
        | some ev =>
          by_cases herr : ev.Type_ = "error" ∧ ev.Error.Message ≠ ""
          · rw [scanLoop_cons_ret _ _ _ _ _ _ _ _ _ hc hp hu (handleEvent_of_error _ _ _ herr),
              tracedLoop_cons_ret _ _ _ _ _ _ _ _ hc hp hu (eventPieces_of_error _ _ _ herr)]
            simp [renderPieces, concatAll]
          · obtain ⟨t, h1, h2, h3, h4⟩ := eventPieces_of_not_error stream st ev herr
            rw [scanLoop_cons_cont _ _ _ _ _ _ _ _ _ _ hc hp hu h2,
              tracedLoop_cons_cont _ _ _ _ _ _ _ _ _ hc hp hu h1]
            obtain ⟨a1, a2, a3, a4, a5⟩ := ih (i + 1)
              { thinkingShown := t.thinkingShown,
                res_all_text := st.res_all_text ++ renderPieces t.pieces,
                partial_json_shown := t.partial_json_shown }
            simp only [] at a1 a2 a3 a4 a5 ⊢
            refine ⟨a1, a2, ?_, ?_, ?_⟩
            · rw [a3, renderPieces_append, String.append_assoc]
            · rw [List.count_append, List.count_append]; omega
            · rw [List.count_append, List.count_append]; omega

/-! ### The function around the loop -/

theorem HandleResponse_of_returned (unmarshal : String → Option ResponseEvent) (stream : Bool)
    (clientDone : Nat → Bool) (lines : List String) (scanErr : Option String)
    (h : (scanLoop unmarshal stream clientDone 0 LoopState.init lines).returned = true) :
    HandleResponse unmarshal stream clientDone lines scanErr =
      { calls := (if stream then [SinkCall.streamHeaders] else []) ++
          (scanLoop unmarshal stream clientDone 0 LoopState.init lines).calls,
        err := none } := by
  simp [HandleResponse, h]

theorem HandleResponse_streaming_end (unmarshal : String → Option ResponseEvent)
    (clientDone : Nat → Bool) (lines : List String)
    (h : (scanLoop unmarshal true clientDone 0 LoopState.init lines).returned = false) :
    HandleResponse unmarshal true clientDone lines none =
      { calls := SinkCall.streamHeaders ::
          ((scanLoop unmarshal true clientDone 0 LoopState.init lines).calls ++
            [SinkCall.writeDone]),
        err := none } := by
  simp [HandleResponse, h]

theorem HandleResponse_aggregated_end (unmarshal : String → Option ResponseEvent)
    (clientDone : Nat → Bool) (lines : List String)
    (h : (scanLoop unmarshal false clientDone 0 LoopState.init lines).returned = false) :
    HandleResponse unmarshal false clientDone lines none =
      { calls := (scanLoop unmarshal false clientDone 0 LoopState.init lines).calls ++
          [SinkCall.ReturnOpenAIResponse
            (scanLoop unmarshal false clientDone 0 LoopState.init lines).st.res_all_text false],
        err := none } := by
  simp [HandleResponse, h]
/-! ### `HandleResponse`: delimiter balance -/

/-- C1 (amended): for every sequence of scanned lines, in both modes and wherever the loop is
left, the text accumulated in `res_all_text` is the rendering of the recorded pieces, the flags
of the two loops agree, and the inserted reasoning-open delimiters outnumber the inserted
reasoning-close delimiters by one exactly when the reasoning segment is still open at the end
(by zero otherwise); likewise for the tool-call delimiters. -/
theorem HandleResponse_delimiter_balance (unmarshal : String → Option ResponseEvent)
    (stream : Bool) (clientDone : Nat → Bool) (lines : List String) :
    (scanLoop unmarshal stream clientDone 0 LoopState.init lines).st.res_all_text =
        renderPieces (tracedLoop unmarshal clientDone 0 false false lines).pieces ∧
    (scanLoop unmarshal stream clientDone 0 LoopState.init lines).st.thinkingShown =
        (tracedLoop unmarshal clientDone 0 false false lines).thinkingShown ∧
    (scanLoop unmarshal stream clientDone 0 LoopState.init lines).st.partial_json_shown =
        (tracedLoop unmarshal clientDone 0 false false lines).partial_json_shown ∧
    inserted Piece.thinkOpen (tracedLoop unmarshal clientDone 0 false false lines) =
        inserted Piece.thinkClose (tracedLoop unmarshal clientDone 0 false false lines) +
          (if (tracedLoop unmarshal clientDone 0 false false lines).thinkingShown
            then 1 else 0) ∧
    inserted Piece.toolOpen (tracedLoop unmarshal clientDone 0 false false lines) =
        inserted Piece.toolClose (tracedLoop unmarshal clientDone 0 false false lines) +
          (if (tracedLoop unmarshal clientDone 0 false false lines).partial_json_shown
            then 1 else 0) := by
  obtain ⟨h1, h2, h3, h4, h5⟩ :=
    tracedLoop_spec unmarshal stream clientDone lines 0 LoopState.init
  simp only [LoopState.init] at h1 h2 h3 h4 h5 ⊢
  refine ⟨?_, h1, h2, ?_, ?_⟩
  · rw [h3, String.empty_append]
  · simpa [inserted] using h4
  · simpa [inserted] using h5

/-- C1 (as stated) fails: a stream that ends inside a reasoning segment has one reasoning-open
delimiter inserted and no reasoning-close delimiter; the aggregated response is the text
`<think> t`. -/
theorem HandleResponse_unbalanced_at_stream_end :
    (HandleResponse sampleUnmarshal false (fun _ => false) [thinkingLine] none).calls =
        [SinkCall.ReturnOpenAIResponse "<think> t" false] ∧
    inserted Piece.thinkOpen (tracedLoop sampleUnmarshal (fun _ => false) 0 false false
        [thinkingLine]) = 1 ∧
    ¬ (inserted Piece.thinkOpen (tracedLoop sampleUnmarshal (fun _ => false) 0 false false
        [thinkingLine]) =
      inserted Piece.thinkClose (tracedLoop sampleUnmarshal (fun _ => false) 0 false false
        [thinkingLine])) := by
  decide

/-! ### `HandleResponse`: aggregated and streaming mode -/

/-- C2: when the lines are read to the end without an error event, a read failure or a
cancellation, aggregated mode hands the sink exactly one text, and that text is the
concatenation, in order, of the texts streaming mode hands the sink on the same input; both
calls return `nil`, and streaming mode ends with the termination marker. -/
theorem HandleResponse_aggregated_eq_concat_streamed
    (unmarshal : String → Option ResponseEvent) (clientDone : Nat → Bool) (lines : List String)
    (hcancel : ∀ j, j < lines.length → clientDone j = false)
    (herror : ∀ l ∈ lines, isErrorLine unmarshal l = false) :
    (HandleResponse unmarshal false clientDone lines none).calls =
      [SinkCall.ReturnOpenAIResponse
        (concatAll (sinkTexts (HandleResponse unmarshal true clientDone lines none).calls))
        false] ∧
    (HandleResponse unmarshal false clientDone lines none).err = none ∧
    (HandleResponse unmarshal true clientDone lines none).err = none ∧
    (HandleResponse unmarshal true clientDone lines none).calls.getLast? =
      some SinkCall.writeDone := by
  have hc : ∀ j, j < lines.length → clientDone (0 + j) = false := by
    intro j hj; rw [Nat.zero_add]; exact hcancel j hj
  obtain ⟨a1, a2, a3, a4, a5⟩ :=
    scanLoop_modes unmarshal clientDone lines 0 LoopState.init hc herror
  have a6 : (LoopState.init).res_all_text = "" := rfl
  rw [a6, String.empty_append] at a5
  rw [HandleResponse_streaming_end _ _ _ a3, HandleResponse_aggregated_end _ _ _ a2, a1, a4, a5]
  refine ⟨?_, rfl, rfl, ?_⟩
  · simp [sinkTexts_append, sinkTexts]
  · simp only []
    rw [← List.cons_append, List.getLast?_append]
    simp

/-- C2 applied to a reasoning segment followed by a tool-call segment and text. -/
theorem HandleResponse_aggregated_eq_concat_streamed_witness :
    (HandleResponse sampleUnmarshal false (fun _ => false)
        [thinkingLine, "", jsonLine, textLine] none).calls =
      [SinkCall.ReturnOpenAIResponse
        (concatAll (sinkTexts (HandleResponse sampleUnmarshal true (fun _ => false)
          [thinkingLine, "", jsonLine, textLine] none).calls))
        false] ∧
    (HandleResponse sampleUnmarshal false (fun _ => false)
        [thinkingLine, "", jsonLine, textLine] none).err = none ∧
    (HandleResponse sampleUnmarshal true (fun _ => false)
        [thinkingLine, "", jsonLine, textLine] none).err = none ∧
    (HandleResponse sampleUnmarshal true (fun _ => false)
        [thinkingLine, "", jsonLine, textLine] none).calls.getLast? =
      some SinkCall.writeDone :=
  HandleResponse_aggregated_eq_concat_streamed sampleUnmarshal (fun _ => false)
    [thinkingLine, "", jsonLine, textLine] (fun _ _ => rfl) (by decide)

/-! ### `HandleResponse`: error events -/

/-- C3 (amended): when the first error event with a message is reached (no cancellation
observed up to it), nothing after it is processed and the call returns `nil`. In aggregated
mode the error message is the only thing handed to the sink. In streaming mode the chunks
already sent for the earlier events stay sent, the error message follows them, and no
termination marker is written. -/
theorem HandleResponse_error_event (unmarshal : String → Option ResponseEvent)
    (clientDone : Nat → Bool) (pre : List String) (line : String) (post : List String)
    (scanErr : Option String) (ev : ResponseEvent)
    (hcancel : ∀ j, j ≤ pre.length → clientDone j = false)
    (hpre : ∀ l ∈ pre, isErrorLine unmarshal l = false)
    (hp : HasPrefix line "data: " = true)
    (hu : unmarshal (sliceFrom line 6) = some ev)
    (herr : ev.Type_ = "error" ∧ ev.Error.Message ≠ "") :
    HandleResponse unmarshal false clientDone (pre ++ line :: post) scanErr =
      { calls := [SinkCall.ReturnOpenAIResponse ev.Error.Message false], err := none } ∧
    HandleResponse unmarshal true clientDone (pre ++ line :: post) scanErr =
      { calls := SinkCall.streamHeaders ::
          ((scanLoop unmarshal true clientDone 0 LoopState.init pre).calls ++
            [SinkCall.ReturnOpenAIResponse ev.Error.Message true]),
        err := none } := by
  have hc : ∀ j, j < pre.length → clientDone (0 + j) = false := by
    intro j hj; rw [Nat.zero_add]; exact hcancel j (Nat.le_of_lt hj)
  have hcl : clientDone (0 + pre.length) = false := by
    rw [Nat.zero_add]; exact hcancel _ (Nat.le_refl _)
  obtain ⟨a1, a2, a3, _, _⟩ := scanLoop_modes unmarshal clientDone pre 0 LoopState.init hc hpre
  have hloop : ∀ stream : Bool,
      (scanLoop unmarshal stream clientDone 0 LoopState.init pre).returned = false →
      scanLoop unmarshal stream clientDone 0 LoopState.init (pre ++ line :: post) =
        { calls := (scanLoop unmarshal stream clientDone 0 LoopState.init pre).calls ++
            [SinkCall.ReturnOpenAIResponse ev.Error.Message stream],
          st := (scanLoop unmarshal stream clientDone 0 LoopState.init pre).st,
          returned := true } := by
    intro stream hr
    rw [scanLoop_append, hr,
      scanLoop_cons_ret _ _ _ _ _ _ _ _ _ hcl hp hu (handleEvent_of_error _ _ _ herr)]
    simp
  constructor
  · rw [HandleResponse_of_returned _ _ _ _ _ (by rw [hloop false a2]), hloop false a2, a1]
    simp
  · rw [HandleResponse_of_returned _ _ _ _ _ (by rw [hloop true a3]), hloop true a3]
    simp

/-- C3 (amended) applied to a text delta followed by an error event and a further delta. -/
theorem HandleResponse_error_event_witness :
    HandleResponse sampleUnmarshal false (fun _ => false)
        ([textLine] ++ errorLine :: [thinkingLine]) none =
      { calls := [SinkCall.ReturnOpenAIResponse "boom" false], err := none } ∧
    HandleResponse sampleUnmarshal true (fun _ => false)
        ([textLine] ++ errorLine :: [thinkingLine]) none =
      { calls := SinkCall.streamHeaders ::
          ((scanLoop sampleUnmarshal true (fun _ => false) 0 LoopState.init [textLine]).calls ++
            [SinkCall.ReturnOpenAIResponse "boom" true]),
        err := none } :=
  HandleResponse_error_event sampleUnmarshal (fun _ => false) [textLine] errorLine
    [thinkingLine] none
    { Type_ := "error", Index := 0,
      Delta := { Type_ := "", Text := "", THINKING := "", PartialJSON := "" },
      Error := { Message := "boom" } }
    (fun _ _ => rfl) (by decide) (by decide) (by decide) (by decide)

/-- C3 (as stated) fails in streaming mode: a text delta followed by an error event hands the
sink the chunk `a` and then the error message, so the output is not the error message alone. -/
theorem HandleResponse_streaming_error_keeps_chunks :
    (HandleResponse sampleUnmarshal true (fun _ => false) [textLine, errorLine] none).calls =
        [SinkCall.streamHeaders, SinkCall.ReturnOpenAIResponse "a" true,
          SinkCall.ReturnOpenAIResponse "boom" true] ∧
    ¬ (sinkTexts (HandleResponse sampleUnmarshal true (fun _ => false)
        [textLine, errorLine] none).calls = ["boom"]) := by
  decide

/-! ### `HandleResponse`: cancellation -/

/-- C9 (amended): the cancellation signal is looked at once per scanned line, before the line
is processed. If it is found fired at the checkpoint of line `k`, the sink calls of the whole
call are the headers of streaming mode and the calls made while processing the first `k` lines
(no chunk for line `k` or a later one, no final response, no termination marker), and `nil` is
returned. -/
theorem HandleResponse_cancelled (unmarshal : String → Option ResponseEvent) (stream : Bool)
    (clientDone : Nat → Bool) (lines : List String) (scanErr : Option String) (k : Nat)
    (hk : k < lines.length) (hfired : clientDone k = true) :
    HandleResponse unmarshal stream clientDone lines scanErr =
      { calls := (if stream then [SinkCall.streamHeaders] else []) ++
          (scanLoop unmarshal stream clientDone 0 LoopState.init (lines.take k)).calls,
        err := none } := by
  have hsplit : lines = lines.take k ++ lines.drop k := (List.take_append_drop k lines).symm
  have hlen : (lines.take k).length = k := by
    rw [List.length_take]; omega
  obtain ⟨line, rest, hdrop⟩ : ∃ line rest, lines.drop k = line :: rest := by
    cases hd : lines.drop k with
    | nil =>
      have := congrArg List.length hd
      rw [List.length_drop] at this
      simp at this
      omega
    | cons line rest => exact ⟨line, rest, rfl⟩
  have hfired2 : clientDone (0 + (lines.take k).length) = true := by
    rw [hlen, Nat.zero_add]; exact hfired
  have hloop : scanLoop unmarshal stream clientDone 0 LoopState.init lines =
      { calls := (scanLoop unmarshal stream clientDone 0 LoopState.init (lines.take k)).calls,
        st := (scanLoop unmarshal stream clientDone 0 LoopState.init (lines.take k)).st,
        returned := true } := by
    conv_lhs => rw [hsplit]
    rw [scanLoop_append, hdrop, scanLoop_cons_cancel _ _ _ _ _ _ _ hfired2]
    cases hr : (scanLoop unmarshal stream clientDone 0 LoopState.init (lines.take k)).returned with
    | true =>
      simp only [if_true]
      rw [← hr]
    | false => simp
  rw [HandleResponse_of_returned _ _ _ _ _ (by rw [hloop]), hloop]

/-- C9 (amended) applied to a cancellation found at the second of three lines. -/
theorem HandleResponse_cancelled_witness :
    HandleResponse sampleUnmarshal true (fun i => decide (1 ≤ i))
        [thinkingLine, textLine, textLine] none =
      { calls := (if true then [SinkCall.streamHeaders] else []) ++
          (scanLoop sampleUnmarshal true (fun i => decide (1 ≤ i)) 0 LoopState.init
            ([thinkingLine, textLine, textLine].take 1)).calls,
        err := none } :=
  HandleResponse_cancelled sampleUnmarshal true (fun i => decide (1 ≤ i))
    [thinkingLine, textLine, textLine] none 1 (by decide) (by decide)

/-- C9 (as stated) fails: when the signal fires after the last line has been scanned there is
no checkpoint left to observe it, and the termination marker (streaming) or the final response
(aggregated) is still handed to the writer. -/
theorem HandleResponse_cancel_after_last_line :
    (fun i => decide (1 ≤ i)) 1 = true ∧
    (HandleResponse sampleUnmarshal true (fun i => decide (1 ≤ i)) [textLine] none).calls =
      [SinkCall.streamHeaders, SinkCall.ReturnOpenAIResponse "a" true, SinkCall.writeDone] ∧
    (HandleResponse sampleUnmarshal false (fun i => decide (1 ≤ i)) [textLine] none).calls =
      [SinkCall.ReturnOpenAIResponse "a" false] ∧
    ¬ ((HandleResponse sampleUnmarshal true (fun i => decide (1 ≤ i)) [textLine] none).calls =
      [SinkCall.streamHeaders] ++
        (scanLoop sampleUnmarshal true (fun i => decide (1 ≤ i)) 0 LoopState.init
          ([textLine].take 1)).calls) := by
  decide

/-! ### `HandleResponse`: the two segment flags -/

/-- C10 (amended): the two flags are independent. For an event that is not an error event:
a `thinking_delta` sets the reasoning flag, leaves the tool-call flag as it is and inserts at
most a reasoning-open delimiter; an `input_json_delta` sets the tool-call flag, leaves the
reasoning flag as it is and inserts at most a tool-call-open delimiter; only a non-empty
`text_delta` closes segments: it inserts the tool-call close, then the reasoning close, for
each segment that is open, and clears both flags. -/
theorem handleEvent_flags_independent (stream : Bool) (st : LoopState) (ev : ResponseEvent)
    (hne : ¬ (ev.Type_ = "error" ∧ ev.Error.Message ≠ "")) :
    ∃ t calls, eventPieces st.thinkingShown st.partial_json_shown ev = some t ∧
      handleEvent stream st ev =
        Step.cont { thinkingShown := t.thinkingShown,
                    res_all_text := st.res_all_text ++ renderPieces t.pieces,
                    partial_json_shown := t.partial_json_shown } calls ∧
      (ev.Delta.Type_ = "thinking_delta" →
        t.thinkingShown = true ∧ t.partial_json_shown = st.partial_json_shown ∧
        t.pieces = (if st.thinkingShown then [] else [Piece.thinkOpen]) ++
          [Piece.backend ev.Delta.THINKING]) ∧
      (ev.Delta.Type_ = "input_json_delta" →
        t.partial_json_shown = true ∧ t.thinkingShown = st.thinkingShown ∧
        t.pieces = (if st.partial_json_shown then [] else [Piece.toolOpen]) ++
          [Piece.backend ev.Delta.PartialJSON]) ∧
      (ev.Delta.Type_ = "text_delta" ∧ ev.Delta.Text ≠ "" →
        t.thinkingShown = false ∧ t.partial_json_shown = false ∧
        t.pieces = (if st.partial_json_shown then [Piece.toolClose] else []) ++
          (if st.thinkingShown then [Piece.thinkClose] else []) ++
          [Piece.backend ev.Delta.Text]) := by
  obtain ⟨t, h1, h2, _, _⟩ := eventPieces_of_not_error stream st ev hne
  refine ⟨t, _, h1, h2, ?_, ?_, ?_⟩
  · intro hty
    have hnt : ¬ (ev.Delta.Type_ = "text_delta" ∧ ev.Delta.Text ≠ "") := by
      rw [hty]; simp
    unfold eventPieces at h1
    rw [if_neg hne, if_neg hnt, if_pos hty] at h1
    cases hth : st.thinkingShown <;> simp [hth] at h1 <;> subst h1 <;> simp
  · intro hty
    have hnt : ¬ (ev.Delta.Type_ = "text_delta" ∧ ev.Delta.Text ≠ "") := by
      rw [hty]; simp
    have hnk : ¬ (ev.Delta.Type_ = "thinking_delta") := by
      rw [hty]; decide
    unfold eventPieces at h1
    rw [if_neg hne, if_neg hnt, if_neg hnk, if_pos hty] at h1
    cases hpj : st.partial_json_shown <;> simp [hpj] at h1 <;> subst h1 <;> simp
  · intro hty
    unfold eventPieces at h1
    rw [if_neg hne, if_pos hty] at h1
    cases hth : st.thinkingShown <;> cases hpj : st.partial_json_shown <;>
      simp [hth, hpj] at h1 <;> subst h1 <;> simp

/-- C10 (amended) applied to a thinking delta arriving while a tool-call segment is open. -/
theorem handleEvent_flags_independent_witness :
    ∃ t calls, eventPieces false true
        { Type_ := "content_block_delta", Index := 0,
          Delta := { Type_ := "thinking_delta", Text := "", THINKING := "t", PartialJSON := "" },
          Error := { Message := "" } } = some t ∧
      handleEvent true
        { thinkingShown := false, res_all_text := "x", partial_json_shown := true }
        { Type_ := "content_block_delta", Index := 0,
          Delta := { Type_ := "thinking_delta", Text := "", THINKING := "t", PartialJSON := "" },
          Error := { Message := "" } } =
        Step.cont { thinkingShown := t.thinkingShown,
                    res_all_text := "x" ++ renderPieces t.pieces,
                    partial_json_shown := t.partial_json_shown } calls ∧
      t.thinkingShown = true ∧ t.partial_json_shown = true ∧
      t.pieces = [Piece.thinkOpen, Piece.backend "t"] := by
  obtain ⟨t, calls, h1, h2, h3, _, _⟩ := handleEvent_flags_independent true
    { thinkingShown := false, res_all_text := "x", partial_json_shown := true }
    { Type_ := "content_block_delta", Index := 0,
      Delta := { Type_ := "thinking_delta", Text := "", THINKING := "t", PartialJSON := "" },
      Error := { Message := "" } } (by decide)
  obtain ⟨b1, b2, b3⟩ := h3 rfl
  exact ⟨t, calls, h1, h2, b1, b2, b3⟩

/-- C10 (as stated) fails: after a thinking delta followed by a tool-input delta both flags are
set, and the tool-input chunk carries no reasoning-close delimiter. -/
theorem HandleResponse_both_segments_open :
    (scanLoop sampleUnmarshal true (fun _ => false) 0 LoopState.init
        [thinkingLine, jsonLine]).st.thinkingShown = true ∧
    (scanLoop sampleUnmarshal true (fun _ => false) 0 LoopState.init
        [thinkingLine, jsonLine]).st.partial_json_shown = true ∧
    (scanLoop sampleUnmarshal true (fun _ => false) 0 LoopState.init
        [thinkingLine, jsonLine]).calls =
      [SinkCall.ReturnOpenAIResponse "<think> t" true,
        SinkCall.ReturnOpenAIResponse "\n```\n j" true] ∧
    (tracedLoop sampleUnmarshal (fun _ => false) 0 false false
        [thinkingLine, jsonLine]).pieces =
      [Piece.thinkOpen, Piece.backend "t", Piece.toolOpen, Piece.backend "j"] := by
  decide
/-! ### Tenant resolution -/

theorem firstDefaultTier_eq_head_filter (orgs : List Org) :
    firstDefaultTier orgs =
      (orgs.filter (fun o => decide (o.RateLimitTier = "default_claude_ai"))).head? := by
  induction orgs with
  | nil => rfl
  | cons o rest ih =>
    by_cases h : o.RateLimitTier = "default_claude_ai"
    · simp [firstDefaultTier, h]
    · simp [firstDefaultTier, h, ih]

/-- C4: on a successful listing, `GetOrgID` fails with `no organizations found` for the empty
list, returns the id of the only record of a one-element list whatever its tier, returns the id
of the record of tier `default_claude_ai` when the list has several records of which exactly
one has that tier, and fails with `no default organization found` when the list has several
records none of which has that tier. -/
theorem GetOrgID_selection (orgs : List Org) :
    (orgs = [] →
      GetOrgID { requestErr := none, StatusCode := 200, orgs := Except.ok orgs } =
        Except.error "no organizations found") ∧
    (∀ o, orgs = [o] →
      GetOrgID { requestErr := none, StatusCode := 200, orgs := Except.ok orgs } =
        Except.ok o.UUID) ∧
    (∀ o, 2 ≤ orgs.length →
      orgs.filter (fun r => decide (r.RateLimitTier = "default_claude_ai")) = [o] →
      GetOrgID { requestErr := none, StatusCode := 200, orgs := Except.ok orgs } =
        Except.ok o.UUID) ∧
    (2 ≤ orgs.length →
      orgs.filter (fun r => decide (r.RateLimitTier = "default_claude_ai")) = [] →
      GetOrgID { requestErr := none, StatusCode := 200, orgs := Except.ok orgs } =
        Except.error "no default organization found") := by
  refine ⟨?_, ?_, ?_, ?_⟩
  · intro h; subst h; rfl
  · intro o h; subst h; rfl
  · intro o hlen hf
    match orgs, hlen, hf with
    | a :: b :: rest, _, hf =>
      have h := firstDefaultTier_eq_head_filter (a :: b :: rest)
      rw [hf] at h
      simp only [List.head?_cons] at h
      simp [GetOrgID, h]
  · intro hlen hf
    match orgs, hlen, hf with
    | a :: b :: rest, _, hf =>
      have h := firstDefaultTier_eq_head_filter (a :: b :: rest)
      rw [hf] at h
      simp only [List.head?_nil] at h
      simp [GetOrgID, h]

/-- C4 applied to the empty list, a single record of another tier, three records with one of
the default tier, and two records without one. -/
theorem GetOrgID_selection_witness :
    GetOrgID { requestErr := none, StatusCode := 200, orgs := Except.ok [] } =
        Except.error "no organizations found" ∧
    GetOrgID { requestErr := none, StatusCode := 200, orgs := Except.ok [Org.mk 1 "u1" "a" "team"] } =
        Except.ok "u1" ∧
    GetOrgID { requestErr := none, StatusCode := 200, orgs := (Except.ok
        [Org.mk 1 "u1" "a" "team", Org.mk 2 "u2" "b" "default_claude_ai",
          Org.mk 3 "u3" "c" "api"]) } =
        Except.ok "u2" ∧
    GetOrgID { requestErr := none, StatusCode := 200, orgs := (Except.ok
        [Org.mk 1 "u1" "a" "team", Org.mk 3 "u3" "c" "api"]) } =
        Except.error "no default organization found" :=
  ⟨(GetOrgID_selection []).1 rfl,
   (GetOrgID_selection [Org.mk 1 "u1" "a" "team"]).2.1 _ rfl,
   (GetOrgID_selection
      [Org.mk 1 "u1" "a" "team", Org.mk 2 "u2" "b" "default_claude_ai",
        Org.mk 3 "u3" "c" "api"]).2.2.1
      (Org.mk 2 "u2" "b" "default_claude_ai") (by decide) (by decide),
   (GetOrgID_selection [Org.mk 1 "u1" "a" "team", Org.mk 3 "u3" "c" "api"]).2.2.2
      (by decide) (by decide)⟩

/-! ### Maps -/

theorem GoMap.keys_set_of_has (m : GoMap) (key : String) (value : Value)
    (h : m.has key = true) : (m.set key value).keys = m.keys := by
  induction m with
  | nil => simp [GoMap.has] at h
  | cons kv rest ih =>
    obtain ⟨k, v⟩ := kv
    by_cases hk : k = key
    · simp [GoMap.set, GoMap.keys, hk]
    · have hne : (key == k) = false := by simpa using fun h => hk h.symm
      have hrest : GoMap.has rest key = true := by
        simpa [GoMap.has, List.lookup, hne] using h
      have := ih hrest
      simp only [GoMap.keys] at this
      simp [GoMap.set, GoMap.keys, hk, this]

theorem GoMap.get?_set_self (m : GoMap) (key : String) (value : Value) :
    (m.set key value).get? key = some value := by
  induction m with
  | nil => simp [GoMap.set, GoMap.get?, List.lookup]
  | cons kv rest ih =>
    obtain ⟨k, v⟩ := kv
    by_cases hk : k = key
    · simp [GoMap.set, GoMap.get?, List.lookup, hk]
    · have hne : (key == k) = false := by simpa using fun h => hk h.symm
      simp only [GoMap.get?] at ih
      simp [GoMap.set, GoMap.get?, List.lookup, hk, hne, ih]

theorem GoMap.get?_set_other (m : GoMap) (key other : String) (value : Value)
    (h : other ≠ key) : (m.set key value).get? other = m.get? other := by
  induction m with
  | nil =>
    have hne : (other == key) = false := by simpa using h
    simp [GoMap.set, GoMap.get?, List.lookup, hne]
  | cons kv rest ih =>
    obtain ⟨k, v⟩ := kv
    simp only [GoMap.get?] at ih
    by_cases hk : k = key
    · subst hk
      have hne : (other == k) = false := by simpa using h
      simp [GoMap.set, GoMap.get?, List.lookup, hne]
    · by_cases ho : other = k
      · subst ho
        simp [GoMap.set, GoMap.get?, List.lookup, hk]
      · have hne : (other == k) = false := by simpa using ho
        simp [GoMap.set, GoMap.get?, List.lookup, hk, hne, ih]

theorem GoMap.has_iff_mem_keys (m : GoMap) (key : String) :
    m.has key = true ↔ key ∈ m.keys := by
  induction m with
  | nil => simp [GoMap.has, GoMap.keys]
  | cons kv rest ih =>
    obtain ⟨k, v⟩ := kv
    simp only [GoMap.has, GoMap.keys] at ih
    by_cases hk : key = k
    · subst hk
      simp [GoMap.has, GoMap.keys, List.lookup]
    · have hne : (key == k) = false := by simpa using hk
      simp [GoMap.has, GoMap.keys, List.lookup, hne, hk, ih]

/-! ### Account settings -/

/-- C6: for a key of the settings template, `UpdateUserSetting` issues one PUT whose body holds
under `settings` an object with exactly the keys of the template, the given value under the
given key and the template default under every other key; for any other key it fails with
`unknown setting key` and issues no request. The template has 28 keys. -/
theorem UpdateUserSetting_overlay (MirrorProxy : String) (put : HttpRequest → HttpResponse)
    (key : String) (value : Value) :
    (key ∈ defaultSettings.keys →
      ∃ settings : GoMap,
        (UpdateUserSetting MirrorProxy put key value).requests =
          [{ method := "PUT",
             url := MirrorProxy ++ "/api/account?statsig_hashing_algorithm=djb2",
             body := Value.map [("settings", Value.map settings)] }] ∧
        settings.keys = defaultSettings.keys ∧
        settings.get? key = some value ∧
        ∀ other, other ≠ key → settings.get? other = defaultSettings.get? other) ∧
    (key ∉ defaultSettings.keys →
      (UpdateUserSetting MirrorProxy put key value).err =
        some ("unknown setting key: " ++ key) ∧
      (UpdateUserSetting MirrorProxy put key value).requests = []) ∧
    defaultSettings.keys.length = 28 ∧ defaultSettings.keys.Nodup := by
  refine ⟨?_, ?_, by decide, by decide⟩
  · intro hk
    have hhas : defaultSettings.has key = true := (GoMap.has_iff_mem_keys _ _).2 hk
    refine ⟨defaultSettings.set key value, ?_, GoMap.keys_set_of_has _ _ _ hhas,
      GoMap.get?_set_self _ _ _, fun other ho => GoMap.get?_set_other _ _ _ _ ho⟩
    unfold UpdateUserSetting
    simp only [hhas, if_true]
    split
    · rfl
    · split <;> rfl
  · intro hk
    have hhas : defaultSettings.has key = false := by
      cases h : defaultSettings.has key with
      | false => rfl
      | true => exact absurd ((GoMap.has_iff_mem_keys _ _).1 h) hk
    unfold UpdateUserSetting
    simp [hhas]

/-- C6 applied to the key `paprika_mode` and to the key `bogus_key`. -/
theorem UpdateUserSetting_overlay_witness :
    (∃ settings : GoMap,
        (UpdateUserSetting "https://claude.ai"
            (fun _ => { requestErr := none, StatusCode := 200, body := "" })
            "paprika_mode" (Value.str "extended")).requests =
          [{ method := "PUT",
             url := "https://claude.ai" ++ "/api/account?statsig_hashing_algorithm=djb2",
             body := Value.map [("settings", Value.map settings)] }] ∧
        settings.keys = defaultSettings.keys ∧
        settings.get? "paprika_mode" = some (Value.str "extended") ∧
        ∀ other, other ≠ "paprika_mode" → settings.get? other = defaultSettings.get? other) ∧
    ((UpdateUserSetting "https://claude.ai"
          (fun _ => { requestErr := none, StatusCode := 200, body := "" })
          "bogus_key" (Value.bool true)).err = some ("unknown setting key: " ++ "bogus_key") ∧
      (UpdateUserSetting "https://claude.ai"
          (fun _ => { requestErr := none, StatusCode := 200, body := "" })
          "bogus_key" (Value.bool true)).requests = []) :=
  ⟨(UpdateUserSetting_overlay "https://claude.ai"
      (fun _ => { requestErr := none, StatusCode := 200, body := "" })
      "paprika_mode" (Value.str "extended")).1 (by decide),
   (UpdateUserSetting_overlay "https://claude.ai"
      (fun _ => { requestErr := none, StatusCode := 200, body := "" })
      "bogus_key" (Value.bool true)).2.1 (by decide)⟩

/-! ### Sending a prompt -/

/-- C7 (failing input): a client fresh from `NewClient` with its tenant set has no `prompt` and
no `model` entry in `defaultAttrs`; after one `SendMessage` the client's `defaultAttrs` holds
both, with the prompt text and the model identifier of the call, and has two more keys. -/
theorem SendMessage_writes_defaultAttrs :
    (SetOrgID (NewClient "sk" "" "claude-3-7-sonnet-20250219" "null" "")
        "org").defaultAttrs.get? "prompt" = none ∧
    (SetOrgID (NewClient "sk" "" "claude-3-7-sonnet-20250219" "null" "")
        "org").defaultAttrs.get? "model" = none ∧
    (SendMessage "https://claude.ai"
        (fun _ => { requestErr := none, StatusCode := 200, lines := [], scanErr := none })
        sampleUnmarshal (fun _ => false)
        (SetOrgID (NewClient "sk" "" "claude-3-7-sonnet-20250219" "null" "") "org")
        "conv" "hello" false).client.defaultAttrs.get? "prompt" = some (Value.str "hello") ∧
    (SendMessage "https://claude.ai"
        (fun _ => { requestErr := none, StatusCode := 200, lines := [], scanErr := none })
        sampleUnmarshal (fun _ => false)
        (SetOrgID (NewClient "sk" "" "claude-3-7-sonnet-20250219" "null" "") "org")
        "conv" "hello" false).client.defaultAttrs.get? "model" =
      some (Value.str "claude-3-7-sonnet-20250219") ∧
    (SendMessage "https://claude.ai"
        (fun _ => { requestErr := none, StatusCode := 200, lines := [], scanErr := none })
        sampleUnmarshal (fun _ => false)
        (SetOrgID (NewClient "sk" "" "claude-3-7-sonnet-20250219" "null" "") "org")
        "conv" "hello" false).client.defaultAttrs.keys =
      (SetOrgID (NewClient "sk" "" "claude-3-7-sonnet-20250219" "null" "")
        "org").defaultAttrs.keys ++ ["prompt", "model"] := by
  refine ⟨rfl, rfl, rfl, rfl, rfl⟩

/-! ### Conversation creation -/

theorem HasSuffix_append (base suffix : String) : HasSuffix (base ++ suffix) suffix = true := by
  unfold HasSuffix
  rw [String.data_append, List.reverse_append, List.isPrefixOf_iff_prefix]
  exact List.prefix_append _ _

theorem TrimSuffix_append (base suffix : String) : TrimSuffix (base ++ suffix) suffix = base := by
  unfold TrimSuffix
  rw [if_pos (HasSuffix_append base suffix), String.data_append, List.length_append,
    Nat.add_sub_cancel, List.take_left']
  rfl

theorem TrimSuffix_of_not_HasSuffix (s suffix : String) (h : HasSuffix s suffix = false) :
    TrimSuffix s suffix = s := by
  simp [TrimSuffix, h]

theorem UpdateUserSetting_paprika_requests (MirrorProxy : String)
    (put : HttpRequest → HttpResponse) (value : Value) :
    (UpdateUserSetting MirrorProxy put "paprika_mode" value).requests =
      [HttpRequest.mk "PUT" (MirrorProxy ++ "/api/account?statsig_hashing_algorithm=djb2")
        (Value.map [("settings", Value.map (defaultSettings.set "paprika_mode" value))])] := by
  have hhas : defaultSettings.has "paprika_mode" = true := by decide
  unfold UpdateUserSetting
  simp only [hhas, if_true]
  split
  · rfl
  · split <;> rfl
/-- The reasoning-mode block strips the marker from the model and issues the settings update
that the flag values `null`, `false` and `true` select. -/
theorem updateReasoningMode_spec (MirrorProxy : String) (put : HttpRequest → HttpResponse)
    (c : Client) :
    (updateReasoningMode MirrorProxy put c).1 =
      { c with model := TrimSuffix c.model "-think" } ∧
    (updateReasoningMode MirrorProxy put c).2 =
      (if HasSuffix c.model "-think" then
        if c.thinking = "null" ∨ c.thinking = "false" then
          [HttpRequest.mk "PUT" (MirrorProxy ++ "/api/account?statsig_hashing_algorithm=djb2")
            (Value.map [("settings",
              Value.map (defaultSettings.set "paprika_mode" (Value.str "extended")))])]
        else []
      else
        if c.thinking = "null" ∨ c.thinking = "true" then
          [HttpRequest.mk "PUT" (MirrorProxy ++ "/api/account?statsig_hashing_algorithm=djb2")
            (Value.map [("settings",
              Value.map (defaultSettings.set "paprika_mode" Value.null))])]
        else []) := by
  unfold updateReasoningMode
  cases hs : HasSuffix c.model "-think" with
  | true =>
    simp only [if_true]
    split <;> simp [UpdateUserSetting_paprika_requests]
  | false =>
    simp only [Bool.false_eq_true, if_false, TrimSuffix_of_not_HasSuffix _ _ hs]
    split <;> simp [UpdateUserSetting_paprika_requests]

/-- C8 (amended): on a client whose tenant is set, `CreateConversation` issues exactly one
settings update with `paprika_mode` set to `extended` when the model ends in `-think` and the
flag is `null` or `false`, exactly one with `paprika_mode` set to null when the model does not
end in `-think` and the flag is `null` or `true`, and none for every other flag value; the
creation request always follows, carries the model without the suffix (no model entry when
that is `claude-sonnet-4-20250514`), and the returned pair does not depend on how the update
was answered. -/
theorem CreateConversation_reasoning_mode (MirrorProxy : String)
    (put : HttpRequest → HttpResponse) (post : HttpRequest → CreateResponse)
    (newUUID : String) (c : Client) (horg : c.orgID ≠ "") :
    (CreateConversation MirrorProxy put post newUUID c).requests =
      (if HasSuffix c.model "-think" then
        if c.thinking = "null" ∨ c.thinking = "false" then
          [HttpRequest.mk "PUT" (MirrorProxy ++ "/api/account?statsig_hashing_algorithm=djb2")
            (Value.map [("settings",
              Value.map (defaultSettings.set "paprika_mode" (Value.str "extended")))])]
        else []
      else
        if c.thinking = "null" ∨ c.thinking = "true" then
          [HttpRequest.mk "PUT" (MirrorProxy ++ "/api/account?statsig_hashing_algorithm=djb2")
            (Value.map [("settings",
              Value.map (defaultSettings.set "paprika_mode" Value.null))])]
        else []) ++
      [HttpRequest.mk "POST"
        (MirrorProxy ++ "/api/organizations/" ++ c.orgID ++ "/chat_conversations")
        (Value.map
          (if TrimSuffix c.model "-think" = "claude-sonnet-4-20250514" then
            [("uuid", Value.str newUUID), ("name", Value.str ""),
              ("include_conversation_preferences", Value.bool true)]
          else
            [("model", Value.str (TrimSuffix c.model "-think")), ("uuid", Value.str newUUID),
              ("name", Value.str ""), ("include_conversation_preferences", Value.bool true)]))] ∧
    (CreateConversation MirrorProxy put post newUUID c).client.model =
      TrimSuffix c.model "-think" ∧
    (∀ base, c.model = base ++ "-think" →
      (CreateConversation MirrorProxy put post newUUID c).client.model = base) ∧
    (∀ put2 : HttpRequest → HttpResponse,
      (CreateConversation MirrorProxy put2 post newUUID c).uuid =
        (CreateConversation MirrorProxy put post newUUID c).uuid ∧
      (CreateConversation MirrorProxy put2 post newUUID c).err =
        (CreateConversation MirrorProxy put post newUUID c).err) := by
  obtain ⟨h1, h2⟩ := updateReasoningMode_spec MirrorProxy put c
  have hput : ∀ put2 : HttpRequest → HttpResponse,
      (updateReasoningMode MirrorProxy put2 c).1 = (updateReasoningMode MirrorProxy put c).1 := by
    intro put2
    rw [(updateReasoningMode_spec MirrorProxy put2 c).1, h1]
  have hmodel : (CreateConversation MirrorProxy put post newUUID c).client.model =
      TrimSuffix c.model "-think" := by
    unfold CreateConversation
    rw [if_neg horg]
    simp only [h1]
    (repeat' split) <;> rfl
  refine ⟨?_, hmodel, ?_, ?_⟩
  · unfold CreateConversation
    rw [if_neg horg]
    simp only [h1, h2]
    by_cases hm : TrimSuffix c.model "-think" = "claude-sonnet-4-20250514"
    · simp only [hm, if_true]
      (repeat' split) <;> rfl
    · simp only [hm, if_false]
      (repeat' split) <;> rfl
  · intro base hb
    rw [hmodel, hb, TrimSuffix_append]
  · intro put2
    unfold CreateConversation
    rw [if_neg horg]
    simp only [hput put2]
    constructor <;> (repeat' split) <;> simp_all

/-- C8 (amended) applied to a client with model `claude-3-7-sonnet-20250219-think` and flag
`false`: one update to `extended`, then the creation request with the suffix stripped. -/
theorem CreateConversation_reasoning_mode_witness :
    (CreateConversation "https://claude.ai"
        (fun _ => { requestErr := some "timeout", StatusCode := 0, body := "" })
        (fun _ => { requestErr := none, StatusCode := 201,
                    result := Except.ok [("uuid", Value.str "c-1")] })
        "u-1"
        { SessionKey := "sk", orgID := "org", cookie := "",
          model := "claude-3-7-sonnet-20250219-think", thinking := "false",
          defaultAttrs := [] }).requests =
      [HttpRequest.mk "PUT" "https://claude.ai/api/account?statsig_hashing_algorithm=djb2"
        (Value.map [("settings",
          Value.map (defaultSettings.set "paprika_mode" (Value.str "extended")))]),
       HttpRequest.mk "POST" "https://claude.ai/api/organizations/org/chat_conversations"
        (Value.map
          [("model", Value.str "claude-3-7-sonnet-20250219"), ("uuid", Value.str "u-1"),
            ("name", Value.str ""), ("include_conversation_preferences", Value.bool true)])] ∧
    (CreateConversation "https://claude.ai"
        (fun _ => { requestErr := some "timeout", StatusCode := 0, body := "" })
        (fun _ => { requestErr := none, StatusCode := 201,
                    result := Except.ok [("uuid", Value.str "c-1")] })
        "u-1"
        { SessionKey := "sk", orgID := "org", cookie := "",
          model := "claude-3-7-sonnet-20250219-think", thinking := "false",
          defaultAttrs := [] }).client.model = "claude-3-7-sonnet-20250219" :=
  ⟨(CreateConversation_reasoning_mode "https://claude.ai"
      (fun _ => { requestErr := some "timeout", StatusCode := 0, body := "" })
      (fun _ => { requestErr := none, StatusCode := 201,
                  result := Except.ok [("uuid", Value.str "c-1")] })
      "u-1"
      { SessionKey := "sk", orgID := "org", cookie := "",
        model := "claude-3-7-sonnet-20250219-think", thinking := "false",
        defaultAttrs := [] } (by decide)).1,
   (CreateConversation_reasoning_mode "https://claude.ai"
      (fun _ => { requestErr := some "timeout", StatusCode := 0, body := "" })
      (fun _ => { requestErr := none, StatusCode := 201,
                  result := Except.ok [("uuid", Value.str "c-1")] })
      "u-1"
      { SessionKey := "sk", orgID := "org", cookie := "",
        model := "claude-3-7-sonnet-20250219-think", thinking := "false",
        defaultAttrs := [] } (by decide)).2.2.1 "claude-3-7-sonnet-20250219" rfl⟩

/-- C8 (as stated) fails: with the flag holding the empty string, which is neither `true`
(extended) nor `false` (off), a model ending in `-think` gets no enabling update and a model
without the suffix gets no disabling update; only the creation request is issued. -/
theorem CreateConversation_no_update_for_other_flag :
    HasSuffix "claude-3-7-sonnet-20250219-think" "-think" = true ∧
    ("" : String) ≠ "true" ∧
    (CreateConversation "https://claude.ai"
        (fun _ => { requestErr := none, StatusCode := 200, body := "" })
        (fun _ => { requestErr := none, StatusCode := 201,
                    result := Except.ok [("uuid", Value.str "c-1")] })
        "u-1"
        { SessionKey := "sk", orgID := "org", cookie := "",
          model := "claude-3-7-sonnet-20250219-think", thinking := "",
          defaultAttrs := [] }).requests.map HttpRequest.method = ["POST"] ∧
    HasSuffix "claude-3-7-sonnet-20250219" "-think" = false ∧
    ("" : String) ≠ "false" ∧
    (CreateConversation "https://claude.ai"
        (fun _ => { requestErr := none, StatusCode := 200, body := "" })
        (fun _ => { requestErr := none, StatusCode := 201,
                    result := Except.ok [("uuid", Value.str "c-1")] })
        "u-1"
        { SessionKey := "sk", orgID := "org", cookie := "",
          model := "claude-3-7-sonnet-20250219", thinking := "",
          defaultAttrs := [] }).requests.map HttpRequest.method = ["POST"] := by
  decide
/-! ### Attachment upload -/

theorem cutAt_eq_some_iff (sep : Char) (l a b : List Char) :
    cutAt sep l = some (a, b) ↔ l = a ++ sep :: b ∧ sep ∉ a := by
  induction l generalizing a b with
  | nil => simp [cutAt]
  | cons ch rest ih =>
    by_cases hc : ch = sep
    · subst hc
      simp only [cutAt, if_true, Option.some.injEq, Prod.mk.injEq]
      constructor
      · rintro ⟨rfl, rfl⟩
        simp
      · rintro ⟨h, hn⟩
        cases a with
        | nil => simpa using h
        | cons x xs =>
          simp only [List.cons_append, List.cons.injEq] at h
          exact absurd (h.1 ▸ List.mem_cons_self _ _) hn
    · simp only [cutAt, if_neg hc]
      cases hr : cutAt sep rest with
      | none =>
        simp only [false_iff, reduceCtorEq]
        rintro ⟨h, hn⟩
        cases a with
        | nil =>
          simp only [List.nil_append, List.cons.injEq] at h
          exact hc h.1
        | cons x xs =>
          simp only [List.cons_append, List.cons.injEq] at h
          have : cutAt sep rest = some (xs, b) :=
            (ih xs b).2 ⟨h.2, fun hm => hn (List.mem_cons_of_mem _ hm)⟩
          rw [hr] at this
          cases this
      | some p =>
        obtain ⟨before, after⟩ := p
        obtain ⟨hl, hn⟩ := (ih before after).1 hr
        simp only [Option.some.injEq, Prod.mk.injEq]
        constructor
        · rintro ⟨rfl, rfl⟩
          refine ⟨by simp [hl], ?_⟩
          simp only [List.mem_cons, not_or]
          exact ⟨fun h => hc h.symm, hn⟩
        · rintro ⟨h, hn2⟩
          cases a with
          | nil =>
            simp only [List.nil_append, List.cons.injEq] at h
            exact absurd h.1 hc
          | cons x xs =>
            simp only [List.cons_append, List.cons.injEq] at h
            have h2 : cutAt sep rest = some (xs, b) :=
              (ih xs b).2 ⟨h.2, fun hm => hn2 (List.mem_cons_of_mem _ hm)⟩
            rw [hr] at h2
            simp only [Option.some.injEq, Prod.mk.injEq] at h2
            exact ⟨by rw [h.1, h2.1], h2.2⟩

theorem SplitN2_of_cut (s : String) (sep : Char) (a b : List Char)
    (h : cutAt sep s.data = some (a, b)) : SplitN2 s sep = [⟨a⟩, ⟨b⟩] := by
  simp [SplitN2, h]

theorem SplitN2_of_none (s : String) (sep : Char) (h : cutAt sep s.data = none) :
    SplitN2 s sep = [s] := by
  simp [SplitN2, h]

/-- The entry parser builds a request exactly for the entries of the shape
`<scheme>:<content-type>;base64,<payload>` with a decodable payload. -/
theorem prepareEntry_upload_iff (MirrorProxy : String)
    (DecodeString : String → Option (List Nat)) (orgID fd : String) (request : UploadRequest) :
    prepareEntry MirrorProxy DecodeString orgID fd = EntryOutcome.upload request ↔
      ∃ (scheme contentType payload : String) (bytes : List Nat),
        fd = scheme ++ ":" ++ contentType ++ ";base64," ++ payload ∧
        ':' ∉ scheme.data ∧ ',' ∉ scheme.data ∧
        ',' ∉ contentType.data ∧ ';' ∉ contentType.data ∧
        DecodeString payload = some bytes ∧
        request = { url := MirrorProxy ++ "/api/" ++ orgID ++ "/upload",
                    filename := filenameFor contentType, fileBytes := bytes } := by
  constructor
  · intro h
    unfold prepareEntry at h
    by_cases hfd : fd = ""
    · rw [if_pos hfd] at h; cases h
    rw [if_neg hfd] at h
    cases h1 : cutAt ',' fd.data with
    | none => rw [SplitN2_of_none _ _ h1] at h; cases h
    | some p1 =>
      obtain ⟨a, b⟩ := p1
      rw [SplitN2_of_cut _ _ _ _ h1] at h
      simp only [] at h
      cases h2 : cutAt ':' a with
      | none =>
        rw [SplitN2_of_none _ _ (by simpa using h2)] at h; cases h
      | some p2 =>
        obtain ⟨s0, m⟩ := p2
        rw [SplitN2_of_cut _ _ _ _ (by simpa using h2)] at h
        simp only [] at h
        cases h3 : cutAt ';' m with
        | none =>
          rw [SplitN2_of_none _ _ (by simpa using h3)] at h; cases h
        | some p3 =>
          obtain ⟨ct, mk⟩ := p3
          rw [SplitN2_of_cut _ _ _ _ (by simpa using h3)] at h
          simp only [] at h
          by_cases hmk : (⟨mk⟩ : String) ≠ "base64"
          · rw [if_pos hmk] at h; cases h
          rw [if_neg hmk] at h
          have hmk2 : mk = ("base64" : String).data := by
            have := not_not.1 hmk
            exact congrArg String.data this
          cases h4 : DecodeString ⟨b⟩ with
          | none => rw [h4] at h; cases h
          | some bytes =>
            rw [h4] at h
            simp only [EntryOutcome.upload.injEq] at h
            obtain ⟨e1, n1⟩ := (cutAt_eq_some_iff _ _ _ _).1 h1
            obtain ⟨e2, n2⟩ := (cutAt_eq_some_iff _ _ _ _).1 h2
            obtain ⟨e3, n3⟩ := (cutAt_eq_some_iff _ _ _ _).1 h3
            have hna : ',' ∉ s0 ∧ ',' ∉ ct := by
              rw [e2, e3] at n1
              simp only [List.mem_append, List.mem_cons, not_or] at n1
              exact ⟨n1.1, n1.2.2.1⟩
            refine ⟨⟨s0⟩, ⟨ct⟩, ⟨b⟩, bytes, ?_, n2, hna.1, hna.2, n3, h4, h.symm⟩
            apply String.ext
            simp only [String.data_append]
            rw [e1, e2, e3, hmk2]
            simp
  · rintro ⟨scheme, ct, payload, bytes, hfd, n1, n2, n3, n4, hdec, hreq⟩
    have hdata : fd.data = (scheme.data ++ ':' :: (ct.data ++ ';' :: ("base64" : String).data)) ++
        ',' :: payload.data := by
      rw [hfd]
      simp only [String.data_append]
      simp
    have h1 : cutAt ',' fd.data =
        some (scheme.data ++ ':' :: (ct.data ++ ';' :: ("base64" : String).data), payload.data) := by
      rw [cutAt_eq_some_iff]
      refine ⟨hdata, ?_⟩
      simp only [List.mem_append, List.mem_cons, not_or]
      exact ⟨n2, by decide, n3, by decide, by decide⟩
    have h2 : cutAt ':' (scheme.data ++ ':' :: (ct.data ++ ';' :: ("base64" : String).data)) =
        some (scheme.data, ct.data ++ ';' :: ("base64" : String).data) := by
      rw [cutAt_eq_some_iff]
      exact ⟨rfl, n1⟩
    have h3 : cutAt ';' (ct.data ++ ';' :: ("base64" : String).data) =
        some (ct.data, ("base64" : String).data) := by
      rw [cutAt_eq_some_iff]
      exact ⟨rfl, n4⟩
    have hne : fd ≠ "" := by
      intro h0
      rw [h0] at hdata
      have := congrArg List.length hdata
      simp at this
      omega
    unfold prepareEntry
    rw [if_neg hne, SplitN2_of_cut _ _ _ _ h1]
    simp only []
    rw [SplitN2_of_cut _ _ _ _ (by simpa using h2)]
    simp only []
    rw [SplitN2_of_cut _ _ _ _ (by simpa using h3)]
    simp only []
    have hb : ¬ ((⟨("base64" : String).data⟩ : String) ≠ "base64") := by decide
    rw [if_neg hb]
    have hp : (⟨payload.data⟩ : String) = payload := rfl
    have hc : (⟨ct.data⟩ : String) = ct := rfl
    rw [hp, hdec, hc, hreq]

theorem prepareEntry_skipped_iff (MirrorProxy : String)
    (DecodeString : String → Option (List Nat)) (orgID fd : String) :
    prepareEntry MirrorProxy DecodeString orgID fd = EntryOutcome.skipped ↔ fd = "" := by
  constructor
  · intro h
    by_contra hne
    unfold prepareEntry at h
    rw [if_neg hne] at h
    repeat' split at h
    all_goals cases h
  · intro h
    simp [prepareEntry, h]

theorem uploadLoop_singleton (MirrorProxy : String) (DecodeString : String → Option (List Nat))
    (post : UploadRequest → UploadResponse) (c : Client) (fd : String) :
    (∀ request, prepareEntry MirrorProxy DecodeString c.orgID fd = EntryOutcome.upload request →
      (uploadLoop MirrorProxy DecodeString post c [fd]).uploads = [request]) ∧
    (prepareEntry MirrorProxy DecodeString c.orgID fd = EntryOutcome.skipped →
      (uploadLoop MirrorProxy DecodeString post c [fd]).uploads = [] ∧
      (uploadLoop MirrorProxy DecodeString post c [fd]).err = none) ∧
    (∀ err, prepareEntry MirrorProxy DecodeString c.orgID fd = EntryOutcome.failed err →
      (uploadLoop MirrorProxy DecodeString post c [fd]).uploads = [] ∧
      (uploadLoop MirrorProxy DecodeString post c [fd]).err = some err) := by
  refine ⟨?_, ?_, ?_⟩
  · intro request h
    simp only [uploadLoop, h]
    repeat' split
    all_goals rfl
  · intro h
    simp [uploadLoop, h]
  · intro err h
    simp [uploadLoop, h]

/-- With one entry, `UploadFile` on a client whose tenant is set issues the request the entry
parser built, if it built one, and returns the parser's error, if it returned one. -/
theorem UploadFile_singleton (MirrorProxy : String) (DecodeString : String → Option (List Nat))
    (post : UploadRequest → UploadResponse) (c : Client) (fd : String) (horg : c.orgID ≠ "") :
    (∀ request, prepareEntry MirrorProxy DecodeString c.orgID fd = EntryOutcome.upload request →
      (UploadFile MirrorProxy DecodeString post c [fd]).uploads = [request]) ∧
    (prepareEntry MirrorProxy DecodeString c.orgID fd = EntryOutcome.skipped →
      (UploadFile MirrorProxy DecodeString post c [fd]).uploads = [] ∧
      (UploadFile MirrorProxy DecodeString post c [fd]).err = none) ∧
    (∀ err, prepareEntry MirrorProxy DecodeString c.orgID fd = EntryOutcome.failed err →
      (UploadFile MirrorProxy DecodeString post c [fd]).uploads = [] ∧
      (UploadFile MirrorProxy DecodeString post c [fd]).err = some err) := by
  obtain ⟨c2, hc2, hU⟩ : ∃ c2 : Client, c2.orgID = c.orgID ∧
      UploadFile MirrorProxy DecodeString post c [fd] =
        uploadLoop MirrorProxy DecodeString post c2 [fd] := by
    have hlen : ¬ ([fd].length = 0) := by simp
    unfold UploadFile
    rw [if_neg horg, if_neg hlen]
    refine ⟨_, ?_, rfl⟩
    split <;> rfl
  rw [hU, ← hc2]
  exact uploadLoop_singleton MirrorProxy DecodeString post c2 fd

/-- Every upload the loop issues was built by the entry parser from one of the entries. -/
theorem uploadLoop_uploads_from_entries (MirrorProxy : String)
    (DecodeString : String → Option (List Nat)) (post : UploadRequest → UploadResponse)
    (fileData : List String) :
    ∀ (c : Client) (r : UploadRequest),
      r ∈ (uploadLoop MirrorProxy DecodeString post c fileData).uploads →
      ∃ fd ∈ fileData,
        prepareEntry MirrorProxy DecodeString c.orgID fd = EntryOutcome.upload r := by
  induction fileData with
  | nil => intro c r h; simp [uploadLoop] at h
  | cons fd rest ih =>
    intro c r h
    cases hp : prepareEntry MirrorProxy DecodeString c.orgID fd with
    | skipped =>
      simp only [uploadLoop, hp] at h
      obtain ⟨fd2, hm, h2⟩ := ih c r h
      exact ⟨fd2, List.mem_cons_of_mem _ hm, h2⟩
    | failed err => simp [uploadLoop, hp] at h
    | upload request =>
      simp only [uploadLoop, hp] at h
      have key : r = request ∨ ∃ c2 : Client, c2.orgID = c.orgID ∧
          r ∈ (uploadLoop MirrorProxy DecodeString post c2 rest).uploads := by
        repeat' split at h
        all_goals
          first
          | exact Or.inl (by simpa using h)
          | (simp only [List.mem_cons] at h
             rcases h with h | h
             · exact Or.inl h
             · exact Or.inr ⟨_, (by first | rfl), h⟩)
      rcases key with hr | ⟨c2, hc2, hm⟩
      · subst hr
        exact ⟨fd, List.mem_cons_self _ _, hp⟩
      · obtain ⟨fd2, hm2, h2⟩ := ih c2 r hm
        rw [hc2] at h2
        exact ⟨fd2, List.mem_cons_of_mem _ hm2, h2⟩

theorem UploadFile_uploads_from_entries (MirrorProxy : String)
    (DecodeString : String → Option (List Nat)) (post : UploadRequest → UploadResponse)
    (c : Client) (fileData : List String) (r : UploadRequest)
    (h : r ∈ (UploadFile MirrorProxy DecodeString post c fileData).uploads) :
    ∃ fd ∈ fileData,
      prepareEntry MirrorProxy DecodeString c.orgID fd = EntryOutcome.upload r := by
  unfold UploadFile at h
  by_cases horg : c.orgID = ""
  · rw [if_pos horg] at h; simp at h
  rw [if_neg horg] at h
  by_cases hlen : fileData.length = 0
  · rw [if_pos hlen] at h; simp at h
  rw [if_neg hlen] at h
  obtain ⟨fd, hm, hfd⟩ := uploadLoop_uploads_from_entries _ _ _ _ _ _ h
  refine ⟨fd, hm, ?_⟩
  rw [← hfd]
  congr 1
  split <;> rfl

/-- C5 (amended): for an entry given to `UploadFile` on a client whose tenant is set, the
upload step is reached exactly when the entry has the shape
`<scheme>:<content-type>;base64,<payload>` (scheme free of `:` and `,`, content type free of
`,` and `;`; the scheme itself is not compared with `data`) and the payload decodes; the bytes
uploaded are then the decoded payload and the file name is `image.jpg`, `image.png`,
`document.pdf` or `file` by content type. The empty entry is skipped without error and without
upload. Every other entry makes `UploadFile` return an error without issuing an upload. In a
list of entries, every upload issued comes from an entry of that shape. -/
theorem UploadFile_entry (MirrorProxy : String) (DecodeString : String → Option (List Nat))
    (post : UploadRequest → UploadResponse) (c : Client) (fd : String) (horg : c.orgID ≠ "") :
    (∀ request, (UploadFile MirrorProxy DecodeString post c [fd]).uploads = [request] ↔
      ∃ (scheme contentType payload : String) (bytes : List Nat),
        fd = scheme ++ ":" ++ contentType ++ ";base64," ++ payload ∧
        ':' ∉ scheme.data ∧ ',' ∉ scheme.data ∧
        ',' ∉ contentType.data ∧ ';' ∉ contentType.data ∧
        DecodeString payload = some bytes ∧
        request = { url := MirrorProxy ++ "/api/" ++ c.orgID ++ "/upload",
                    filename := filenameFor contentType, fileBytes := bytes }) ∧
    (fd = "" →
      (UploadFile MirrorProxy DecodeString post c [fd]).uploads = [] ∧
      (UploadFile MirrorProxy DecodeString post c [fd]).err = none) ∧
    (fd ≠ "" →
      (¬ ∃ (scheme contentType payload : String) (bytes : List Nat),
        fd = scheme ++ ":" ++ contentType ++ ";base64," ++ payload ∧
        ':' ∉ scheme.data ∧ ',' ∉ scheme.data ∧
        ',' ∉ contentType.data ∧ ';' ∉ contentType.data ∧
        DecodeString payload = some bytes) →
      (UploadFile MirrorProxy DecodeString post c [fd]).uploads = [] ∧
      ∃ err, (UploadFile MirrorProxy DecodeString post c [fd]).err = some err) ∧
    (∀ (fileData : List String) (r : UploadRequest),
      r ∈ (UploadFile MirrorProxy DecodeString post c fileData).uploads →
      ∃ entry ∈ fileData, ∃ (scheme contentType payload : String) (bytes : List Nat),
        entry = scheme ++ ":" ++ contentType ++ ";base64," ++ payload ∧
        ':' ∉ scheme.data ∧ ',' ∉ scheme.data ∧
        ',' ∉ contentType.data ∧ ';' ∉ contentType.data ∧
        DecodeString payload = some bytes ∧
        r = { url := MirrorProxy ++ "/api/" ++ c.orgID ++ "/upload",
              filename := filenameFor contentType, fileBytes := bytes }) ∧
    (filenameFor "image/jpeg" = "image.jpg" ∧ filenameFor "image/png" = "image.png" ∧
      filenameFor "application/pdf" = "document.pdf" ∧
      ∀ contentType, contentType ≠ "image/jpeg" → contentType ≠ "image/png" →
        contentType ≠ "application/pdf" → filenameFor contentType = "file") := by
  obtain ⟨hup, hskip, hfail⟩ := UploadFile_singleton MirrorProxy DecodeString post c fd horg
  refine ⟨?_, ?_, ?_, ?_, by decide, by decide, by decide, ?_⟩
  · intro request
    rw [← prepareEntry_upload_iff]
    constructor
    · intro h
      cases hp : prepareEntry MirrorProxy DecodeString c.orgID fd with
      | skipped =>
        rw [(hskip hp).1] at h
        cases h
      | failed err =>
        rw [(hfail err hp).1] at h
        cases h
      | upload r =>
        rw [hup r hp] at h
        simp only [List.cons.injEq, and_true] at h
        rw [h]
    · intro h
      exact hup request h
  · intro h
    exact hskip ((prepareEntry_skipped_iff _ _ _ _).2 h)
  · intro hne hshape
    cases hp : prepareEntry MirrorProxy DecodeString c.orgID fd with
    | skipped => exact absurd ((prepareEntry_skipped_iff _ _ _ _).1 hp) hne
    | failed err => exact ⟨(hfail err hp).1, err, (hfail err hp).2⟩
    | upload r =>
      obtain ⟨scheme, ct, payload, bytes, h1, h2, h3, h4, h5, h6, _⟩ :=
        (prepareEntry_upload_iff _ _ _ _ _).1 hp
      exact absurd ⟨scheme, ct, payload, bytes, h1, h2, h3, h4, h5, h6⟩ hshape
  · intro fileData r h
    obtain ⟨entry, hm, hp⟩ := UploadFile_uploads_from_entries _ _ _ _ _ _ h
    exact ⟨entry, hm, (prepareEntry_upload_iff _ _ _ _ _).1 hp⟩
  · intro contentType h1 h2 h3
    simp [filenameFor, h1, h2, h3]

/-- C5 (amended) applied to a PNG data URI (bytes `ABC`, file name `image.png`), to the empty
entry, and to an entry without a comma. -/
theorem UploadFile_entry_witness :
    (UploadFile "https://claude.ai" stdDecodeString
        (fun _ => { requestErr := none, StatusCode := 200, body := "",
                    result := Except.ok "file-1" })
        (SetOrgID (NewClient "sk" "" "claude-3-7-sonnet-20250219" "null" "") "org")
        ["data:image/png;base64,QUJD"]).uploads =
      [{ url := "https://claude.ai/api/org/upload", filename := "image.png",
         fileBytes := [65, 66, 67] }] ∧
    ((UploadFile "https://claude.ai" stdDecodeString
        (fun _ => { requestErr := none, StatusCode := 200, body := "",
                    result := Except.ok "file-1" })
        (SetOrgID (NewClient "sk" "" "claude-3-7-sonnet-20250219" "null" "") "org")
        [""]).uploads = [] ∧
      (UploadFile "https://claude.ai" stdDecodeString
        (fun _ => { requestErr := none, StatusCode := 200, body := "",
                    result := Except.ok "file-1" })
        (SetOrgID (NewClient "sk" "" "claude-3-7-sonnet-20250219" "null" "") "org")
        [""]).err = none) ∧
    ((UploadFile "https://claude.ai" stdDecodeString
        (fun _ => { requestErr := none, StatusCode := 200, body := "",
                    result := Except.ok "file-1" })
        (SetOrgID (NewClient "sk" "" "claude-3-7-sonnet-20250219" "null" "") "org")
        ["data:image/png;base64"]).uploads = [] ∧
      ∃ err, (UploadFile "https://claude.ai" stdDecodeString
        (fun _ => { requestErr := none, StatusCode := 200, body := "",
                    result := Except.ok "file-1" })
        (SetOrgID (NewClient "sk" "" "claude-3-7-sonnet-20250219" "null" "") "org")
        ["data:image/png;base64"]).err = some err) :=
  ⟨((UploadFile_entry "https://claude.ai" stdDecodeString
        (fun _ => { requestErr := none, StatusCode := 200, body := "",
                    result := Except.ok "file-1" })
        (SetOrgID (NewClient "sk" "" "claude-3-7-sonnet-20250219" "null" "") "org")
        "data:image/png;base64,QUJD" (by decide)).1 _).2
      ⟨"data", "image/png", "QUJD", [65, 66, 67], by decide, by decide, by decide, by decide,
        by decide, by decide, rfl⟩,
   (UploadFile_entry "https://claude.ai" stdDecodeString
        (fun _ => { requestErr := none, StatusCode := 200, body := "",
                    result := Except.ok "file-1" })
        (SetOrgID (NewClient "sk" "" "claude-3-7-sonnet-20250219" "null" "") "org")
        "" (by decide)).2.1 rfl,
   (UploadFile_entry "https://claude.ai" stdDecodeString
        (fun _ => { requestErr := none, StatusCode := 200, body := "",
                    result := Except.ok "file-1" })
        (SetOrgID (NewClient "sk" "" "claude-3-7-sonnet-20250219" "null" "") "org")
        "data:image/png;base64" (by decide)).2.2.1 (by decide)
      (by
        rintro ⟨scheme, ct, payload, bytes, h, _⟩
        have hm : ',' ∈ ("data:image/png;base64" : String).data := by
          rw [h]
          simp [String.data_append]
        exact absurd hm (by decide))⟩

/-- C5 (as stated) fails: an entry whose scheme is not `data` reaches the upload step, and the
empty entry returns no error. -/
theorem UploadFile_scheme_unchecked_and_empty_skipped :
    HasPrefix "x:image/png;base64,QUJD" "data:" = false ∧
    (UploadFile "https://claude.ai" stdDecodeString
        (fun _ => { requestErr := none, StatusCode := 200, body := "",
                    result := Except.ok "file-1" })
        (SetOrgID (NewClient "sk" "" "claude-3-7-sonnet-20250219" "null" "") "org")
        ["x:image/png;base64,QUJD"]).uploads =
      [{ url := "https://claude.ai/api/org/upload", filename := "image.png",
         fileBytes := [65, 66, 67] }] ∧
    (UploadFile "https://claude.ai" stdDecodeString
        (fun _ => { requestErr := none, StatusCode := 200, body := "",
                    result := Except.ok "file-1" })
        (SetOrgID (NewClient "sk" "" "claude-3-7-sonnet-20250219" "null" "") "org")
        [""]).err = none := by
  decide

end Claude2Api
